import Mathlib

/-!
Verification development for the occupational-builder layout editor core:
the object update/normalisation pipeline (`src/model/objectUpdate.ts`),
the geometry kernel (`src/model/geometry.ts`), the snap engine
(`src/ui/canvas/Canvas2D.tsx`), the dimension generator
(`src/model/geometry/dimensions.ts`) and the history log (`src/model/history.ts`).

Modelling conventions:
* JavaScript `number` values are modelled as `ℚ` (all the properties below are
  exact-arithmetic facts; the source never relies on float rounding error).
* `Math.round` is modelled by Mathlib's `round` (both round half toward +∞).
* `Math.cos`/`Math.sin` appear only via `rotatePointMm`; they are abstracted as
  a `Trig` record of functions `ℚ → ℚ` (`cosDeg d` stands for
  `Math.cos (d·π/180)`).  Theorems that evaluate rotated geometry at concrete
  angles carry hypotheses about the trig values at those angles (e.g.
  `cosDeg 0 = 1`), which the real cosine satisfies.
* TypeScript union types become Lean sum types; records become structures;
  optional fields / `Partial<...>` patches become `Option` fields.
* The repository contains two schema generations for measurement bookkeeping:
  the `measurementOffsets` generation (`src/model/types.ts`,
  `src/model/objectUpdate.ts`, canvas/snap code) modelled in namespace `Core`,
  and the `measurementAnchors`/`measurementLabels` generation
  (`src/model/history.ts`, `src/model/geometry/dimensions.ts`) modelled in
  namespace `Hist` (with the dimension generator in namespace `Dims`).
  The `DimensionObj` arm of the `Object2D` union (plain annotation lines) is
  not involved in any property below and is omitted from the embedding.
-/

/-- The eight measurement keys (`src/model/types.ts`). -/
inductive MeasurementKey where
  | L1 | L2 | W1 | W2 | WL | WR | H | E
deriving DecidableEq

/-- A point in millimetres (`geometry.ts`: `PointMm`). -/
structure PointMm where
  xMm : ℚ
  yMm : ℚ
deriving DecidableEq

/-- Abstraction of `Math.cos`/`Math.sin` as used by `rotatePointMm`:
`cosDeg d` stands for `Math.cos (d * Math.PI / 180)` and `sinDeg d` for
`Math.sin (d * Math.PI / 180)`. -/
structure Trig where
  cosDeg : ℚ → ℚ
  sinDeg : ℚ → ℚ

/-- `Record<MeasurementKey, boolean>` (`types.ts`: `MeasurementState`). -/
structure MeasurementState where
  L1 : Bool
  L2 : Bool
  W1 : Bool
  W2 : Bool
  WL : Bool
  WR : Bool
  H : Bool
  E : Bool
deriving DecidableEq

/-- Read the flag stored under a key. -/
def MeasurementState.get (m : MeasurementState) : MeasurementKey → Bool
  | .L1 => m.L1
  | .L2 => m.L2
  | .W1 => m.W1
  | .W2 => m.W2
  | .WL => m.WL
  | .WR => m.WR
  | .H => m.H
  | .E => m.E

/-- Write the flag stored under a key (computed-key assignment in a spread). -/
def MeasurementState.set (m : MeasurementState) (k : MeasurementKey) (v : Bool) :
    MeasurementState :=
  match k with
  | .L1 => { m with L1 := v }
  | .L2 => { m with L2 := v }
  | .W1 => { m with W1 := v }
  | .W2 => { m with W2 := v }
  | .WL => { m with WL := v }
  | .WR => { m with WR := v }
  | .H => { m with H := v }
  | .E => { m with E := v }

/-- `Partial<MeasurementState>`: a measurement patch may supply any subset of
the eight keys. -/
structure MeasurementPatch where
  L1 : Option Bool := none
  L2 : Option Bool := none
  W1 : Option Bool := none
  W2 : Option Bool := none
  WL : Option Bool := none
  WR : Option Bool := none
  H : Option Bool := none
  E : Option Bool := none
deriving DecidableEq

/-- Read the patch entry stored under a key. -/
def MeasurementPatch.get (p : MeasurementPatch) : MeasurementKey → Option Bool
  | .L1 => p.L1
  | .L2 => p.L2
  | .W1 => p.W1
  | .W2 => p.W2
  | .WL => p.WL
  | .WR => p.WR
  | .H => p.H
  | .E => p.E

namespace Core

/-- `Record<MeasurementKey, number>` (`types.ts`: `measurementOffsets`). -/
structure MeasurementOffsets where
  L1 : ℚ
  L2 : ℚ
  W1 : ℚ
  W2 : ℚ
  WL : ℚ
  WR : ℚ
  H : ℚ
  E : ℚ
deriving DecidableEq

/-- Shared fields of ramp and landing objects (`types.ts`: `BaseObj`, minus the
`kind` discriminant, which is carried by the `Object2D` sum). -/
structure BaseObj where
  id : String
  xMm : ℚ
  yMm : ℚ
  lengthMm : ℚ
  widthMm : ℚ
  heightMm : ℚ
  elevationMm : ℚ
  rotationDeg : ℚ
  locked : Bool
  measurements : MeasurementState
  measurementOffsets : MeasurementOffsets
deriving DecidableEq

/-- `types.ts`: `RampObj` (fields beyond `BaseObj`). -/
structure RampObj where
  base : BaseObj
  runMm : ℚ
  showArrow : Bool
  hasLeftWing : Bool
  leftWingSizeMm : ℚ
  hasRightWing : Bool
  rightWingSizeMm : ℚ
deriving DecidableEq

/-- `types.ts`: `LandingObj`. -/
structure LandingObj where
  base : BaseObj
deriving DecidableEq

/-- `types.ts`: `Object2D` (the `DimensionObj` arm is not modelled; see the
file header). -/
inductive Object2D where
  | ramp : RampObj → Object2D
  | landing : LandingObj → Object2D
deriving DecidableEq

/-- The shared base record of an object. -/
def Object2D.base : Object2D → BaseObj
  | .ramp r => r.base
  | .landing l => l.base

/-- The `id` field of an object. -/
def Object2D.id (o : Object2D) : String := o.base.id

/-- `types.ts`: `Snapshot`.  `snapIncrementMm` is typed `1 | 10 | 100 | 1000`
in the source; it is modelled as a plain `ℚ`. -/
structure Snapshot where
  snapToGrid : Bool
  snapToObjects : Bool
  snapIncrementMm : ℚ
  objects : List Object2D
  selectedId : Option String
deriving DecidableEq

/-- `objectUpdate.ts`: `ObjectPatch = Partial<Object2D> | Partial<BaseObj>`.
Every patchable field is optional; `kind` is accepted and ignored by the
patch appliers, so it is not carried here. -/
structure ObjectPatch where
  id : Option String := none
  xMm : Option ℚ := none
  yMm : Option ℚ := none
  lengthMm : Option ℚ := none
  widthMm : Option ℚ := none
  heightMm : Option ℚ := none
  elevationMm : Option ℚ := none
  rotationDeg : Option ℚ := none
  locked : Option Bool := none
  measurements : Option MeasurementPatch := none
  measurementOffsets : Option MeasurementOffsets := none
  runMm : Option ℚ := none
  showArrow : Option Bool := none
  hasLeftWing : Option Bool := none
  leftWingSizeMm : Option ℚ := none
  hasRightWing : Option Bool := none
  rightWingSizeMm : Option ℚ := none
deriving DecidableEq

/-- The empty patch `{}`. -/
def ObjectPatch.empty : ObjectPatch := {}

/-- `objectUpdate.ts`: `roundMm = (mm) => Math.round(mm)`. -/
def roundMm (mm : ℚ) : ℚ := (round mm : ℤ)

/-- `objectUpdate.ts`: `clampInt(value, min, max?)`.  The `Number.isFinite`
fallback branch cannot fire over `ℚ` (every rational is finite), so the
clamped value is returned directly. -/
def clampInt (value : ℚ) (min : ℚ) (max? : Option ℚ := none) : ℚ :=
  let rounded : ℚ := (round value : ℤ)
  Max.max min (match max? with
    | some m => Min.min m rounded
    | none => rounded)

/-- `objectUpdate.ts`: `normaliseDeg = (deg) => { const rounded = Math.round(deg);
return ((rounded % 360) + 360) % 360 }`.  JavaScript `%` on integers is the
truncated remainder, i.e. `Int.tmod`. -/
def normaliseDeg (deg : ℚ) : ℚ :=
  let rounded : ℤ := round deg
  ((Int.tmod rounded 360 + 360).tmod 360 : ℤ)

/-- `objectUpdate.ts` line 18: the module-local key list.  Note it contains
only six of the eight `MeasurementKey`s — `WL` and `WR` are absent. -/
def measurementKeys : List MeasurementKey :=
  [.L1, .L2, .W1, .W2, .H, .E]

/-- `objectUpdate.ts`: `mergeMeasurements(current, patch?)` — merges
`patch[key] ?? current[key]` for each key of `measurementKeys`, starting from
a copy of `current`. -/
def mergeMeasurements (current : MeasurementState)
    (patch : Option MeasurementPatch) : MeasurementState :=
  match patch with
  | none => current
  | some p =>
      measurementKeys.foldl
        (fun acc key => acc.set key ((p.get key).getD (current.get key)))
        current

/-- `objectUpdate.ts`: `normaliseBaseObject` (the spread `{...obj, ...}` acting
on the shared fields). -/
def normaliseBaseObject (obj : BaseObj) : BaseObj :=
  { obj with
    lengthMm := clampInt obj.lengthMm 0
    widthMm := clampInt obj.widthMm 0
    heightMm := clampInt obj.heightMm 0
    elevationMm := clampInt obj.elevationMm 0
    rotationDeg := normaliseDeg obj.rotationDeg
    xMm := roundMm obj.xMm
    yMm := roundMm obj.yMm }

/-- `objectUpdate.ts`: `normaliseRampObject`.  `Boolean(...)` on a `Bool` is
the identity. -/
def normaliseRampObject (obj : RampObj) : RampObj :=
  let base := normaliseBaseObject obj.base
  { obj with
    base := base
    runMm := clampInt obj.runMm 0
    hasLeftWing := obj.hasLeftWing
    hasRightWing := obj.hasRightWing
    leftWingSizeMm := clampInt (if obj.hasLeftWing then obj.leftWingSizeMm else 0) 0
    rightWingSizeMm := clampInt (if obj.hasRightWing then obj.rightWingSizeMm else 0) 0 }

/-- `objectUpdate.ts`: `normaliseLandingObject`. -/
def normaliseLandingObject (obj : LandingObj) : LandingObj :=
  { obj with base := normaliseBaseObject obj.base }

/-- `objectUpdate.ts`: `measurementsEqual` — compares only the six keys of the
module-local `measurementKeys` list. -/
def measurementsEqual (a b : MeasurementState) : Bool :=
  measurementKeys.all (fun key => a.get key == b.get key)

/-- `objectUpdate.ts`: the `baseEqual` conjunction of `objectsEqual` (all the
shared scalar fields plus `measurementsEqual`; `measurementOffsets` is not
compared). -/
def baseFieldsEqual (a b : BaseObj) : Bool :=
  a.id == b.id &&
  a.xMm == b.xMm &&
  a.yMm == b.yMm &&
  a.lengthMm == b.lengthMm &&
  a.widthMm == b.widthMm &&
  a.heightMm == b.heightMm &&
  a.elevationMm == b.elevationMm &&
  a.rotationDeg == b.rotationDeg &&
  a.locked == b.locked &&
  measurementsEqual a.measurements b.measurements

/-- `objectUpdate.ts`: `objectsEqual`.  The `a.kind === b.kind` comparison and
the per-kind branches become a match on the two sum-type arms. -/
def objectsEqual : Object2D → Object2D → Bool
  | .ramp a, .ramp b =>
      baseFieldsEqual a.base b.base &&
      (a.runMm == b.runMm &&
       a.showArrow == b.showArrow &&
       a.hasLeftWing == b.hasLeftWing &&
       a.leftWingSizeMm == b.leftWingSizeMm &&
       a.hasRightWing == b.hasRightWing &&
       a.rightWingSizeMm == b.rightWingSizeMm)
  | .landing a, .landing b => baseFieldsEqual a.base b.base
  | _, _ => false

/-- Spec-side structural equality, stated from the specification's words for
comparison with the implementation's `objectsEqual`: it compares every field,
including the `measurements` and `measurementOffsets` (anchor) maps key-by-key
over all eight measurement keys. -/
def objectsEqualSpec : Object2D → Object2D → Bool
  | .ramp a, .ramp b =>
      a == b
  | .landing a, .landing b => a == b
  | _, _ => false

/-- Apply the base-field part of a patch (the `...rest` spread of
`applyPatchToRamp` / `applyPatchToLanding`, restricted to `BaseObj` fields
other than `measurements`). -/
def applyBasePatch (obj : BaseObj) (patch : ObjectPatch) : BaseObj :=
  { id := patch.id.getD obj.id
    xMm := patch.xMm.getD obj.xMm
    yMm := patch.yMm.getD obj.yMm
    lengthMm := patch.lengthMm.getD obj.lengthMm
    widthMm := patch.widthMm.getD obj.widthMm
    heightMm := patch.heightMm.getD obj.heightMm
    elevationMm := patch.elevationMm.getD obj.elevationMm
    rotationDeg := patch.rotationDeg.getD obj.rotationDeg
    locked := patch.locked.getD obj.locked
    measurements := mergeMeasurements obj.measurements patch.measurements
    measurementOffsets := patch.measurementOffsets.getD obj.measurementOffsets }

/-- `objectUpdate.ts`: `applyPatchToRamp` — `kind` is ignored, `measurements`
is merged key-by-key, every other supplied field (including
`measurementOffsets`) overrides wholesale, then the candidate is normalised. -/
def applyPatchToRamp (obj : RampObj) (patch : ObjectPatch) : RampObj :=
  let candidate : RampObj :=
    { base := applyBasePatch obj.base patch
      runMm := patch.runMm.getD obj.runMm
      showArrow := patch.showArrow.getD obj.showArrow
      hasLeftWing := patch.hasLeftWing.getD obj.hasLeftWing
      leftWingSizeMm := patch.leftWingSizeMm.getD obj.leftWingSizeMm
      hasRightWing := patch.hasRightWing.getD obj.hasRightWing
      rightWingSizeMm := patch.rightWingSizeMm.getD obj.rightWingSizeMm }
  normaliseRampObject candidate

/-- `objectUpdate.ts`: `applyPatchToLanding` — the ramp-only fields of the
patch are destructured away and ignored. -/
def applyPatchToLanding (obj : LandingObj) (patch : ObjectPatch) : LandingObj :=
  normaliseLandingObject { base := applyBasePatch obj.base patch }

/-- Dispatch on `target.kind === "ramp"` inside `updateObject`. -/
def applyPatch (target : Object2D) (patch : ObjectPatch) : Object2D :=
  match target with
  | .ramp r => .ramp (applyPatchToRamp r patch)
  | .landing l => .landing (applyPatchToLanding l patch)

/-- `objectUpdate.ts`: `updateObject(snapshot, id, patch)`.  `findIndex`
returning `-1` is modelled by `List.findIdx?` returning `none`; the inner
`none` arm of the element lookup is unreachable (`findIdx?` always returns an
index in range) and returns the snapshot unchanged. -/
def updateObject (snapshot : Snapshot) (id : String) (patch : ObjectPatch) :
    Snapshot :=
  match snapshot.objects.findIdx? (fun obj => obj.id == id) with
  | none => snapshot
  | some index =>
      match snapshot.objects.get? index with
      | none => snapshot
      | some target =>
          let updated := applyPatch target patch
          if objectsEqual target updated then snapshot
          else { snapshot with objects := snapshot.objects.set index updated }

end Core

/-! ### Geometry kernel (`src/model/geometry.ts`) -/

/-- `geometry.ts`: `BoundingBoxMm = SizeMm & { offsetXMm?; offsetYMm? }`. -/
structure BoundingBoxMm where
  widthMm : ℚ
  heightMm : ℚ
  offsetXMm : Option ℚ := none
  offsetYMm : Option ℚ := none
deriving DecidableEq

/-- `geometry.ts`: `isVerticalRotation = (d) => Math.abs(d % 180) === 90`.
JavaScript `%` on numbers truncates toward zero; over `ℚ` this is
`a - b * trunc (a / b)` with `trunc` the integer part toward zero. -/
def jsRem (a b : ℚ) : ℚ :=
  a - b * ((if 0 ≤ a / b then (⌊a / b⌋ : ℤ) else (⌈a / b⌉ : ℤ)) : ℚ)

/-- `geometry.ts` / `Canvas2D.tsx`: vertical-rotation test. -/
def isVerticalRotation (rotationDeg : ℚ) : Bool :=
  |jsRem rotationDeg 180| == 90

/-- `geometry.ts`: `rotatePointMm(point, rotationDeg)` — rotation about the
origin by `rotationDeg` degrees, with the trigonometric functions abstracted
by `tg` (see `Trig`). -/
def rotatePointMm (tg : Trig) (point : PointMm) (rotationDeg : ℚ) : PointMm :=
  let cos := tg.cosDeg rotationDeg
  let sin := tg.sinDeg rotationDeg
  { xMm := point.xMm * cos - point.yMm * sin
    yMm := point.xMm * sin + point.yMm * cos }

/-- Minimum of a list of rationals (`Math.min(...xs)`); the empty case (which
would be `Infinity` in JavaScript) is never exercised — every caller passes a
non-empty outline. -/
def listMin : List ℚ → ℚ
  | [] => 0
  | x :: xs => xs.foldl Min.min x

/-- Maximum of a list of rationals (`Math.max(...xs)`). -/
def listMax : List ℚ → ℚ
  | [] => 0
  | x :: xs => xs.foldl Max.max x

/-- `geometry.ts`: `boundingBoxFromPoints` — axis-aligned min/max reduction;
the offset is the midpoint of the min/max range. -/
def boundingBoxFromPoints (points : List PointMm) : BoundingBoxMm :=
  let xs := points.map (fun p => p.xMm)
  let ys := points.map (fun p => p.yMm)
  let minX := listMin xs
  let maxX := listMax xs
  let minY := listMin ys
  let maxY := listMax ys
  { widthMm := maxX - minX
    heightMm := maxY - minY
    offsetXMm := some ((minX + maxX) / 2)
    offsetYMm := some ((minY + maxY) / 2) }

/-- `geometry.ts`: `topLeftFromCenterMm(center, size)`. -/
def topLeftFromCenterMm (center : PointMm) (size : BoundingBoxMm) : PointMm :=
  { xMm := center.xMm + (size.offsetXMm.getD 0) - size.widthMm / 2
    yMm := center.yMm + (size.offsetYMm.getD 0) - size.heightMm / 2 }

/-- `geometry.ts`: `centerFromTopLeftMm(topLeft, size)`. -/
def centerFromTopLeftMm (topLeft : PointMm) (size : BoundingBoxMm) : PointMm :=
  { xMm := topLeft.xMm - (size.offsetXMm.getD 0) + size.widthMm / 2
    yMm := topLeft.yMm - (size.offsetYMm.getD 0) + size.heightMm / 2 }

namespace Core

/-- `geometry.ts`: `getRampOutlinePointsMm(obj, { includeWings })` — the local
outline `[A, B, (outerDownRight, C | C), D, (outerDownLeft?)]` where the wing
corners are present only when the corresponding wing size is positive. -/
def getRampOutlinePointsMm (obj : RampObj) (includeWings : Bool := true) :
    List PointMm :=
  let halfLength := obj.runMm / 2
  let halfWidth := obj.base.widthMm / 2
  let lw := if includeWings && obj.hasLeftWing then obj.leftWingSizeMm else 0
  let rw := if includeWings && obj.hasRightWing then obj.rightWingSizeMm else 0
  let A : PointMm := { xMm := -halfLength, yMm := -halfWidth }
  let B : PointMm := { xMm := -halfLength, yMm := halfWidth }
  let C : PointMm := { xMm := halfLength, yMm := halfWidth }
  let D : PointMm := { xMm := halfLength, yMm := -halfWidth }
  [A, B] ++
    (if 0 < rw then [{ xMm := halfLength, yMm := halfWidth + rw }, C] else [C]) ++
    [D] ++
    (if 0 < lw then [{ xMm := halfLength, yMm := -halfWidth - lw }] else [])

/-- `geometry.ts`: `getRampBoundingBoxMm(obj, options?)`. -/
def getRampBoundingBoxMm (tg : Trig) (obj : RampObj)
    (includeWings : Bool := true) : BoundingBoxMm :=
  let outline := getRampOutlinePointsMm obj includeWings
  let rotated := outline.map (fun point => rotatePointMm tg point obj.base.rotationDeg)
  boundingBoxFromPoints rotated

/-- `geometry.ts`: `getObjectBoundingBoxMm(obj)` — ramps use the rotated
wing-inclusive outline; landings swap length/width when the rotation is
vertical, with zero offsets. -/
def getObjectBoundingBoxMm (tg : Trig) : Object2D → BoundingBoxMm
  | .ramp r => getRampBoundingBoxMm tg r
  | .landing l =>
      let vertical := isVerticalRotation l.base.rotationDeg
      if vertical then
        { widthMm := l.base.widthMm, heightMm := l.base.lengthMm
          offsetXMm := some 0, offsetYMm := some 0 }
      else
        { widthMm := l.base.lengthMm, heightMm := l.base.widthMm
          offsetXMm := some 0, offsetYMm := some 0 }

end Core

/-! ### Units (`src/model/units.ts`) -/

/-- `units.ts`: `GRID_STEP_MM = 100`. -/
def GRID_STEP_MM : ℚ := 100

/-- `units.ts`: `snapMm(mm, stepMm = GRID_STEP_MM) = Math.round(mm / stepMm) * stepMm`. -/
def snapMm (mm : ℚ) (stepMm : ℚ := GRID_STEP_MM) : ℚ :=
  ((round (mm / stepMm) : ℤ) : ℚ) * stepMm

/-! ### Snap engine (`src/ui/canvas/Canvas2D.tsx`) -/

namespace Core

/-- `Canvas2D.tsx`: `SNAP_THRESHOLD_MM = 20`. -/
def SNAP_THRESHOLD_MM : ℚ := 20

/-- `Canvas2D.tsx`: `MIN_INCREMENT_MM = 1`. -/
def MIN_INCREMENT_MM : ℚ := 1

/-- `Canvas2D.tsx`: `AabbMm`. -/
structure AabbMm where
  left : ℚ
  right : ℚ
  top : ℚ
  bottom : ℚ
  cx : ℚ
  cy : ℚ
  w : ℚ
  h : ℚ
deriving DecidableEq

/-- `Canvas2D.tsx`: `getAabbMm(obj, centerOverride?)`. -/
def getAabbMm (tg : Trig) (obj : Object2D) (centerOverride : Option PointMm := none) :
    AabbMm :=
  let size := getObjectBoundingBoxMm tg obj
  let center : PointMm :=
    { xMm := (centerOverride.map (fun c => c.xMm)).getD obj.base.xMm
      yMm := (centerOverride.map (fun c => c.yMm)).getD obj.base.yMm }
  let topLeft := topLeftFromCenterMm center size
  let left := topLeft.xMm
  let top := topLeft.yMm
  { left := left
    right := left + size.widthMm
    top := top
    bottom := top + size.heightMm
    cx := center.xMm + size.offsetXMm.getD 0
    cy := center.yMm + size.offsetYMm.getD 0
    w := size.widthMm
    h := size.heightMm }

/-- A named point of interest (`Canvas2D.tsx`: the elements of `getPoisMm`). -/
structure Poi where
  name : String
  x : ℚ
  y : ℚ
deriving DecidableEq

/-- `Canvas2D.tsx`: `getPoisMm(aabb)` — the four corners, four edge midpoints
and the centre, in source order. -/
def getPoisMm (aabb : AabbMm) : List Poi :=
  [ { name := "topLeft", x := aabb.left, y := aabb.top }
  , { name := "topRight", x := aabb.right, y := aabb.top }
  , { name := "bottomLeft", x := aabb.left, y := aabb.bottom }
  , { name := "bottomRight", x := aabb.right, y := aabb.bottom }
  , { name := "midTop", x := aabb.cx, y := aabb.top }
  , { name := "midBottom", x := aabb.cx, y := aabb.bottom }
  , { name := "midLeft", x := aabb.left, y := aabb.cy }
  , { name := "midRight", x := aabb.right, y := aabb.cy }
  , { name := "centre", x := aabb.cx, y := aabb.cy } ]

/-- Candidate type tag (`"face" | "poi"`). -/
inductive SnapType where
  | face
  | poi
deriving DecidableEq

/-- A target point carried by a poi candidate (`{ x, y }`). -/
structure TargetPoint where
  x : ℚ
  y : ℚ
deriving DecidableEq

/-- `Canvas2D.tsx`: `SnapAxisCandidate`. -/
structure SnapAxisCandidate where
  delta : ℚ
  snapCoord : ℚ
  type : SnapType
  poiName : Option String := none
  targetPoint : Option TargetPoint := none
deriving DecidableEq

/-- The reducer inside `pickBestAxisCandidate`: keep the accumulator unless
the current candidate has strictly smaller absolute delta. -/
def pickBestStep (best : Option SnapAxisCandidate) (current : SnapAxisCandidate) :
    Option SnapAxisCandidate :=
  match best with
  | none => some current
  | some b => if |current.delta| < |b.delta| then some current else some b

/-- `Canvas2D.tsx`: `pickBestAxisCandidate` — face candidates take priority;
within the pool, `reduce` keeps the first candidate with strictly smallest
absolute delta. -/
def pickBestAxisCandidate (candidates : List SnapAxisCandidate) :
    Option SnapAxisCandidate :=
  let faceCandidates := candidates.filter (fun c => c.type == .face)
  let pool := if 0 < faceCandidates.length then faceCandidates else candidates
  pool.foldl pickBestStep none

/-- `Canvas2D.tsx`: `SnapGuideState` (the payload of `setSnapGuide`). -/
structure SnapGuideState where
  snappedX : Option ℚ := none
  snappedY : Option ℚ := none
  snappedPoint : Option PointMm := none
deriving DecidableEq

/-- The outcome of `getObjectSnap`: the corrected centre the function returns,
together with the per-axis selections and the guide payload it publishes via
`setSnapGuide`. -/
structure SnapResult where
  centreMm : PointMm
  bestX : Option SnapAxisCandidate := none
  bestY : Option SnapAxisCandidate := none
  guide : SnapGuideState := {}
deriving DecidableEq

/-- The face-alignment candidates on one axis contributed by one target face
list (`pushFaceCandidates` inside `getObjectSnap`): one candidate per
active/target face pair whose delta is within threshold, in loop order. -/
def faceCandidates (activeFaces targetFaces : List ℚ) : List SnapAxisCandidate :=
  activeFaces.flatMap (fun activeCoord =>
    targetFaces.filterMap (fun targetCoord =>
      let delta := targetCoord - activeCoord
      if |delta| > SNAP_THRESHOLD_MM then none
      else some { delta := delta, snapCoord := targetCoord, type := .face }))

/-- The x-axis poi candidates contributed by the active/target poi pairs
(`pushPoiCandidates`, x branch). -/
def poiCandidatesX (activePois targetPois : List Poi) : List SnapAxisCandidate :=
  activePois.flatMap (fun activePoi =>
    targetPois.filterMap (fun targetPoi =>
      let deltaX := targetPoi.x - activePoi.x
      if |deltaX| ≤ SNAP_THRESHOLD_MM then
        some { delta := deltaX, snapCoord := targetPoi.x, type := .poi
               poiName := some activePoi.name
               targetPoint := some { x := targetPoi.x, y := targetPoi.y } }
      else none))

/-- The y-axis poi candidates contributed by the active/target poi pairs
(`pushPoiCandidates`, y branch). -/
def poiCandidatesY (activePois targetPois : List Poi) : List SnapAxisCandidate :=
  activePois.flatMap (fun activePoi =>
    targetPois.filterMap (fun targetPoi =>
      let deltaY := targetPoi.y - activePoi.y
      if |deltaY| ≤ SNAP_THRESHOLD_MM then
        some { delta := deltaY, snapCoord := targetPoi.y, type := .poi
               poiName := some activePoi.name
               targetPoint := some { x := targetPoi.x, y := targetPoi.y } }
      else none))

/-- `Canvas2D.tsx`: `getObjectSnap(obj, proposedCentre)` for the move gesture.
`snapToGrid`, `snapToObjects`, `snapIncrementMm` and `objects` are component
props captured by the closure; they are explicit parameters here.  The
candidate lists accumulate per other object: face pushes first, then poi
pushes, exactly as the nested `forEach` loops run. -/
def getObjectSnap (tg : Trig) (snapToGrid snapToObjects : Bool)
    (snapIncrementMm : ℚ) (objects : List Object2D) (obj : Object2D)
    (proposedCentre : PointMm) : SnapResult :=
  let bbox := getObjectBoundingBoxMm tg obj
  if !snapToGrid && !snapToObjects then
    let freeTopLeft := topLeftFromCenterMm proposedCentre bbox
    let roundedTopLeft : PointMm :=
      { xMm := snapMm freeTopLeft.xMm MIN_INCREMENT_MM
        yMm := snapMm freeTopLeft.yMm MIN_INCREMENT_MM }
    { centreMm := centerFromTopLeftMm roundedTopLeft bbox
      guide := { snappedPoint := none } }
  else
    let activeAabb := getAabbMm tg obj (some proposedCentre)
    let activePois := getPoisMm activeAabb
    let otherObjects := objects.filter (fun o => !(o.id == obj.id))
    let activeXFaces := [activeAabb.left, activeAabb.cx, activeAabb.right]
    let activeYFaces := [activeAabb.top, activeAabb.cy, activeAabb.bottom]
    let xCandidates : List SnapAxisCandidate :=
      if snapToObjects then
        otherObjects.flatMap (fun other =>
          let targetAabb := getAabbMm tg other
          let targetPois := getPoisMm targetAabb
          faceCandidates activeXFaces [targetAabb.left, targetAabb.cx, targetAabb.right] ++
            poiCandidatesX activePois targetPois)
      else []
    let yCandidates : List SnapAxisCandidate :=
      if snapToObjects then
        otherObjects.flatMap (fun other =>
          let targetAabb := getAabbMm tg other
          let targetPois := getPoisMm targetAabb
          faceCandidates activeYFaces [targetAabb.top, targetAabb.cy, targetAabb.bottom] ++
            poiCandidatesY activePois targetPois)
      else []
    let bestX := pickBestAxisCandidate xCandidates
    let bestY := pickBestAxisCandidate yCandidates
    let xSnappedToObject := snapToObjects && bestX.isSome
    let ySnappedToObject := snapToObjects && bestY.isSome
    let snappedAfterObject : PointMm :=
      { xMm := proposedCentre.xMm + ((bestX.map (fun c => c.delta)).getD 0)
        yMm := proposedCentre.yMm + ((bestY.map (fun c => c.delta)).getD 0) }
    let snappedPoint : Option TargetPoint :=
      if snapToObjects then
        match bestX with
        | some bx =>
            if bx.type == .poi then bx.targetPoint
            else match bestY with
              | some bv => if bv.type == .poi then bv.targetPoint else none
              | none => none
        | none =>
            match bestY with
            | some bv => if bv.type == .poi then bv.targetPoint else none
            | none => none
      else none
    let guide : SnapGuideState :=
      if snapToObjects then
        { snappedX := if xSnappedToObject then bestX.map (fun c => c.snapCoord) else none
          snappedY := if ySnappedToObject then bestY.map (fun c => c.snapCoord) else none
          snappedPoint := snappedPoint.map (fun p => { xMm := p.x, yMm := p.y }) }
      else { snappedPoint := none }
    let snappedTopLeft := topLeftFromCenterMm snappedAfterObject bbox
    let shouldSnapGridX := snapToGrid && !xSnappedToObject
    let shouldSnapGridY := snapToGrid && !ySnappedToObject
    let baseGridStepX := if shouldSnapGridX then snapIncrementMm else MIN_INCREMENT_MM
    let baseGridStepY := if shouldSnapGridY then snapIncrementMm else MIN_INCREMENT_MM
    let gridSnappedTopLeft : PointMm :=
      { xMm := snapMm snappedTopLeft.xMm baseGridStepX
        yMm := snapMm snappedTopLeft.yMm baseGridStepY }
    { centreMm := centerFromTopLeftMm gridSnappedTopLeft bbox
      bestX := bestX
      bestY := bestY
      guide := guide }

end Core

/-! ### History log (`src/model/history.ts`) and its schema generation

The history module operates on the `measurementAnchors`/`measurementLabels`
generation of the object model (the one used by `src/model/geometry/dimensions.ts`
and the newer `objectUpdate` revision).  That generation's `types.ts` is not
part of the sources; its shape is reconstructed from the spec's data model
(§3) and from every field access the in-source modules make. -/

namespace Hist

/-- `"horizontal" | "vertical" | "auto"`. -/
inductive AnchorOrientation where
  | horizontal
  | vertical
  | auto
deriving DecidableEq

/-- `MeasurementAnchor = { offsetMm, orientation }`. -/
structure MeasurementAnchor where
  offsetMm : ℚ
  orientation : AnchorOrientation
deriving DecidableEq

/-- `Record<MeasurementKey, MeasurementAnchor>`. -/
structure MeasurementAnchors where
  L1 : MeasurementAnchor
  L2 : MeasurementAnchor
  W1 : MeasurementAnchor
  W2 : MeasurementAnchor
  WL : MeasurementAnchor
  WR : MeasurementAnchor
  H : MeasurementAnchor
  E : MeasurementAnchor
deriving DecidableEq

/-- Read the anchor stored under a key. -/
def MeasurementAnchors.get (m : MeasurementAnchors) : MeasurementKey → MeasurementAnchor
  | .L1 => m.L1
  | .L2 => m.L2
  | .W1 => m.W1
  | .W2 => m.W2
  | .WL => m.WL
  | .WR => m.WR
  | .H => m.H
  | .E => m.E

/-- Per-key optional label offsets (`measurementLabels`; entries may be
`undefined`). -/
structure MeasurementLabels where
  L1 : Option PointMm := none
  L2 : Option PointMm := none
  W1 : Option PointMm := none
  W2 : Option PointMm := none
  WL : Option PointMm := none
  WR : Option PointMm := none
  H : Option PointMm := none
  E : Option PointMm := none
deriving DecidableEq

/-- Shared fields of this generation's objects (spec §3 `BaseObj` with
`measurementAnchors`/`measurementLabels`). -/
structure BaseObj where
  id : String
  xMm : ℚ
  yMm : ℚ
  lengthMm : ℚ
  widthMm : ℚ
  heightMm : ℚ
  elevationMm : ℚ
  rotationDeg : ℚ
  locked : Bool
  measurements : MeasurementState
  measurementAnchors : MeasurementAnchors
  measurementLabels : MeasurementLabels
deriving DecidableEq

/-- This generation's `RampObj`. -/
structure RampObj where
  base : BaseObj
  runMm : ℚ
  showArrow : Bool
  hasLeftWing : Bool
  leftWingSizeMm : ℚ
  hasRightWing : Bool
  rightWingSizeMm : ℚ
deriving DecidableEq

/-- This generation's `LandingObj`. -/
structure LandingObj where
  base : BaseObj
deriving DecidableEq

/-- This generation's `Object2D`. -/
inductive Object2D where
  | ramp : RampObj → Object2D
  | landing : LandingObj → Object2D
deriving DecidableEq

/-- The shared base record of an object. -/
def Object2D.base : Object2D → BaseObj
  | .ramp r => r.base
  | .landing l => l.base

/-- This generation's `Snapshot`.  Modelled from the spec: the generation's
`types.ts` is not among the sources; the field list follows spec §3
(`objects`, `selectedId`, `selectedMeasurementKey`, `snapToGrid`,
`snapToObjects`, `snapIncrementMm`).  `cloneSnapshot` spreads all scalar
fields unchanged, so the history theorems do not depend on this list. -/
structure Snapshot where
  snapToGrid : Bool
  snapToObjects : Bool
  snapIncrementMm : ℚ
  objects : List Object2D
  selectedId : Option String
  selectedMeasurementKey : Option MeasurementKey
deriving DecidableEq

/-- `history.ts`: `MAX_PAST = 50`. -/
def MAX_PAST : Nat := 50

/-- `history.ts`: `HistoryState`. -/
structure HistoryState where
  past : List Snapshot
  present : Snapshot
  future : List Snapshot
deriving DecidableEq

/-- The per-object rebuild inside `cloneSnapshot`: `{...obj, measurements:
{...}, measurementLabels: Object.fromEntries(...), measurementAnchors:
Object.fromEntries(...)}`. -/
def cloneObject : Object2D → Object2D
  | .ramp r =>
      .ramp { r with base :=
        { r.base with
          measurements := { r.base.measurements with } 
          measurementLabels := { r.base.measurementLabels with }
          measurementAnchors := { r.base.measurementAnchors with } } }
  | .landing l =>
      .landing { l with base :=
        { l.base with
          measurements := { l.base.measurements with }
          measurementLabels := { l.base.measurementLabels with }
          measurementAnchors := { l.base.measurementAnchors with } } }

/-- `history.ts`: `cloneSnapshot` — spreads the snapshot and rebuilds each
object with copied measurement maps. -/
def cloneSnapshot (snapshot : Snapshot) : Snapshot :=
  { snapshot with objects := snapshot.objects.map cloneObject }

/-- `history.ts`: `createHistoryState(initial)`. -/
def createHistoryState (initial : Snapshot) : HistoryState :=
  { past := [], present := cloneSnapshot initial, future := [] }

/-- `history.ts`: `replacePresent(history, nextPresent)`. -/
def replacePresent (history : HistoryState) (nextPresent : Snapshot) : HistoryState :=
  { history with present := cloneSnapshot nextPresent }

/-- `history.ts`: `commitSnapshot(history, nextPresent)` — push a copy of the
present onto `past`, drop the oldest entry (`Array.shift`) once the length
exceeds `MAX_PAST`, set the present, clear the future. -/
def commitSnapshot (history : HistoryState) (nextPresent : Snapshot) : HistoryState :=
  let nextPast := history.past ++ [cloneSnapshot history.present]
  let trimmedPast := if MAX_PAST < nextPast.length then nextPast.tail else nextPast
  { past := trimmedPast
    present := cloneSnapshot nextPresent
    future := [] }

/-- `history.ts`: `undo(history)`. -/
def undo (history : HistoryState) : HistoryState :=
  match history.past.getLast? with
  | none => history
  | some previous =>
      { past := history.past.dropLast
        present := cloneSnapshot previous
        future := cloneSnapshot history.present :: history.future }

/-- `history.ts`: `redo(history)`. -/
def redo (history : HistoryState) : HistoryState :=
  match history.future with
  | [] => history
  | nextPresent :: restFuture =>
      let nextPast := history.past ++ [cloneSnapshot history.present]
      let trimmedPast := if MAX_PAST < nextPast.length then nextPast.tail else nextPast
      { past := trimmedPast
        present := cloneSnapshot nextPresent
        future := restFuture }

/-- `history.ts`: `canUndo`. -/
def canUndo (history : HistoryState) : Bool := 0 < history.past.length

/-- `history.ts`: `canRedo`. -/
def canRedo (history : HistoryState) : Bool := 0 < history.future.length

end Hist

/-! ### Dimension generator (`src/model/geometry/dimensions.ts`) -/

namespace Dims

open Hist

/-- Era-B copy of `geometry.ts`: `getRampOutlinePointsMm` (the dimension
generator imports the geometry module; its functions read only the geometric
fields, so the embedding repeats them over this generation's `RampObj`). -/
def getRampOutlinePointsMm (obj : Hist.RampObj) (includeWings : Bool := true) :
    List PointMm :=
  let halfLength := obj.runMm / 2
  let halfWidth := obj.base.widthMm / 2
  let lw := if includeWings && obj.hasLeftWing then obj.leftWingSizeMm else 0
  let rw := if includeWings && obj.hasRightWing then obj.rightWingSizeMm else 0
  let A : PointMm := { xMm := -halfLength, yMm := -halfWidth }
  let B : PointMm := { xMm := -halfLength, yMm := halfWidth }
  let C : PointMm := { xMm := halfLength, yMm := halfWidth }
  let D : PointMm := { xMm := halfLength, yMm := -halfWidth }
  [A, B] ++
    (if 0 < rw then [{ xMm := halfLength, yMm := halfWidth + rw }, C] else [C]) ++
    [D] ++
    (if 0 < lw then [{ xMm := halfLength, yMm := -halfWidth - lw }] else [])

/-- Era-B copy of `geometry.ts`: `getRampBoundingBoxMm`. -/
def getRampBoundingBoxMm (tg : Trig) (obj : Hist.RampObj)
    (includeWings : Bool := true) : BoundingBoxMm :=
  let outline := getRampOutlinePointsMm obj includeWings
  let rotated := outline.map (fun point => rotatePointMm tg point obj.base.rotationDeg)
  boundingBoxFromPoints rotated

/-- Era-B copy of `geometry.ts`: `getObjectBoundingBoxMm`. -/
def getObjectBoundingBoxMm (tg : Trig) : Hist.Object2D → BoundingBoxMm
  | .ramp r => getRampBoundingBoxMm tg r
  | .landing l =>
      let vertical := isVerticalRotation l.base.rotationDeg
      if vertical then
        { widthMm := l.base.widthMm, heightMm := l.base.lengthMm
          offsetXMm := some 0, offsetYMm := some 0 }
      else
        { widthMm := l.base.lengthMm, heightMm := l.base.widthMm
          offsetXMm := some 0, offsetYMm := some 0 }

/-- `dimensions.ts`: `DimensionSegmentVariant`. -/
inductive DimensionSegmentVariant where
  | length
  | width
  | wing
  | height
  | elevation
deriving DecidableEq

/-- A resolved segment orientation (`"horizontal" | "vertical"`). -/
inductive Orientation where
  | horizontal
  | vertical
deriving DecidableEq

/-- `dimensions.ts`: `DimensionSegment`. -/
structure DimensionSegment where
  measurementKey : MeasurementKey
  objectId : String
  startMm : PointMm
  endMm : PointMm
  orientation : Orientation
  label : String
  variant : DimensionSegmentVariant
  tickLengthMm : ℚ
  anchorOffsetMm : Option ℚ := none
  anchorOriginMm : Option PointMm := none
  anchorDirectionMm : Option PointMm := none
  anchorScale : Option ℚ := none
  labelPositionMm : Option PointMm := none
deriving DecidableEq

/-- `defaults.ts`: `DEFAULT_MEASUREMENT_OFFSET_MM = 200`. -/
def DEFAULT_MEASUREMENT_OFFSET_MM : ℚ := 200

/-- `dimensions.ts`: `DIMENSION_TICK_LENGTH_MM = 80`. -/
def DIMENSION_TICK_LENGTH_MM : ℚ := 80

/-- `dimensions.ts`: `DIMENSION_BRACKET_HEIGHT_MM = 160`. -/
def DIMENSION_BRACKET_HEIGHT_MM : ℚ := 160

/-- `dimensions.ts`: `DIMENSION_BRACKET_SPACING_MM = 60`. -/
def DIMENSION_BRACKET_SPACING_MM : ℚ := 60

/-- `dimensions.ts`: `defaultAnchor` (used when an object carries no anchor
map; this embedding's anchor map is total, so it only documents the default). -/
def defaultAnchor : MeasurementAnchor :=
  { offsetMm := DEFAULT_MEASUREMENT_OFFSET_MM, orientation := .auto }

/-- `dimensions.ts`: `formatMm = (v) => Math.round(v) + "mm"`. -/
def formatMm (valueMm : ℚ) : String := toString (round valueMm : ℤ) ++ "mm"

/-- `dimensions.ts`: its local `normaliseRotationDeg` (float modulo 360, then
wrap negatives forward). -/
def normaliseRotationDeg (rotationDeg : ℚ) : ℚ :=
  let wrapped := jsRem rotationDeg 360
  if wrapped < 0 then wrapped + 360 else wrapped

/-- `dimensions.ts`: `isLengthVertical`. -/
def isLengthVertical (rotationDeg : ℚ) : Bool :=
  |jsRem (normaliseRotationDeg rotationDeg) 180| == 90

/-- `dimensions.ts`: `getAnchor(obj, key)` — `obj.measurementAnchors?.[key]
?? defaultAnchor`; the anchor map is total here, so the lookup always hits. -/
def getAnchor (obj : Hist.Object2D) (key : MeasurementKey) : MeasurementAnchor :=
  obj.base.measurementAnchors.get key

/-- A ramp wing side. -/
inductive Side where
  | left
  | right
deriving DecidableEq

/-- `dimensions.ts`: `buildWingDimensionSegment(obj, side)` — `null` unless the
wing is enabled, positively sized and its measurement flag is on. -/
def buildWingDimensionSegment (tg : Trig) (obj : Hist.RampObj) (side : Side) :
    Option DimensionSegment :=
  let hasWing := match side with | .left => obj.hasLeftWing | .right => obj.hasRightWing
  let wingSize : ℚ := match side with | .left => obj.leftWingSizeMm | .right => obj.rightWingSizeMm
  let measurementKey : MeasurementKey := match side with | .left => .WL | .right => .WR
  if hasWing = false ∨ wingSize ≤ 0 ∨ obj.base.measurements.get measurementKey = false
  then none
  else
    let verticalLength := isLengthVertical obj.base.rotationDeg
    let orientation : Orientation := if verticalLength then .horizontal else .vertical
    let anchor := getAnchor (.ramp obj) measurementKey
    let halfRun := obj.runMm / 2
    let halfWidth := obj.base.widthMm / 2
    let wingDirection : ℚ := match side with | .right => 1 | .left => -1
    let localBase : PointMm := { xMm := halfRun, yMm := wingDirection * halfWidth }
    let localTip : PointMm := { xMm := halfRun, yMm := wingDirection * (halfWidth + wingSize) }
    let baseRotated := rotatePointMm tg localBase obj.base.rotationDeg
    let tipRotated := rotatePointMm tg localTip obj.base.rotationDeg
    let lengthDirection := rotatePointMm tg { xMm := 1, yMm := 0 } obj.base.rotationDeg
    let offset : PointMm :=
      { xMm := lengthDirection.xMm * anchor.offsetMm
        yMm := lengthDirection.yMm * anchor.offsetMm }
    let baseWorld : PointMm :=
      { xMm := obj.base.xMm + baseRotated.xMm + offset.xMm
        yMm := obj.base.yMm + baseRotated.yMm + offset.yMm }
    let tipWorld : PointMm :=
      { xMm := obj.base.xMm + tipRotated.xMm + offset.xMm
        yMm := obj.base.yMm + tipRotated.yMm + offset.yMm }
    let originWorld : PointMm :=
      { xMm := obj.base.xMm + baseRotated.xMm, yMm := obj.base.yMm + baseRotated.yMm }
    let startMm := baseWorld
    let endMm : PointMm :=
      match orientation with
      | .horizontal => { xMm := tipWorld.xMm, yMm := baseWorld.yMm }
      | .vertical => { xMm := baseWorld.xMm, yMm := tipWorld.yMm }
    some
      { measurementKey := measurementKey
        objectId := obj.base.id
        startMm := startMm
        endMm := endMm
        orientation := orientation
        label := formatMm wingSize
        variant := .wing
        tickLengthMm := DIMENSION_TICK_LENGTH_MM
        anchorOffsetMm := some anchor.offsetMm
        anchorOriginMm := some originWorld
        anchorDirectionMm := some lengthDirection }

/-- `dimensions.ts`: `getDimensionBoundingBox` — ramps are measured without
their wings. -/
def getDimensionBoundingBox (tg : Trig) : Hist.Object2D → BoundingBoxMm
  | .ramp r => getRampBoundingBoxMm tg r false
  | .landing l => getObjectBoundingBoxMm tg (.landing l)

/-- `dimensions.ts`: the `L1` arm of `buildEdgeDimensionSegments`. -/
def buildL1Segment (obj : Hist.Object2D) (left right top bottom : ℚ)
    (verticalLength : Bool) : DimensionSegment :=
  let anchor := getAnchor obj .L1
  let orientation : Orientation :=
    match anchor.orientation with
    | .auto => if verticalLength then .vertical else .horizontal
    | .vertical => .vertical
    | .horizontal => .horizontal
  let offset := anchor.offsetMm
  match orientation with
  | .vertical =>
      { measurementKey := .L1
        objectId := obj.base.id
        startMm := { xMm := left - offset, yMm := top }
        endMm := { xMm := left - offset, yMm := bottom }
        orientation := .vertical
        label := formatMm (bottom - top)
        variant := .length
        tickLengthMm := DIMENSION_TICK_LENGTH_MM
        anchorOffsetMm := some offset
        anchorOriginMm := some { xMm := left, yMm := top }
        anchorDirectionMm := some { xMm := -1, yMm := 0 } }
  | .horizontal =>
      { measurementKey := .L1
        objectId := obj.base.id
        startMm := { xMm := left, yMm := top - offset }
        endMm := { xMm := right, yMm := top - offset }
        orientation := .horizontal
        label := formatMm (right - left)
        variant := .length
        tickLengthMm := DIMENSION_TICK_LENGTH_MM
        anchorOffsetMm := some offset
        anchorOriginMm := some { xMm := left, yMm := top }
        anchorDirectionMm := some { xMm := 0, yMm := -1 } }

/-- `dimensions.ts`: the `L2` arm of `buildEdgeDimensionSegments`. -/
def buildL2Segment (obj : Hist.Object2D) (left right top bottom : ℚ)
    (verticalLength : Bool) : DimensionSegment :=
  let anchor := getAnchor obj .L2
  let orientation : Orientation :=
    match anchor.orientation with
    | .auto => if verticalLength then .vertical else .horizontal
    | .vertical => .vertical
    | .horizontal => .horizontal
  let offset := anchor.offsetMm
  match orientation with
  | .vertical =>
      { measurementKey := .L2
        objectId := obj.base.id
        startMm := { xMm := right + offset, yMm := top }
        endMm := { xMm := right + offset, yMm := bottom }
        orientation := .vertical
        label := formatMm (bottom - top)
        variant := .length
        tickLengthMm := DIMENSION_TICK_LENGTH_MM
        anchorOffsetMm := some offset
        anchorOriginMm := some { xMm := right, yMm := top }
        anchorDirectionMm := some { xMm := 1, yMm := 0 } }
  | .horizontal =>
      { measurementKey := .L2
        objectId := obj.base.id
        startMm := { xMm := left, yMm := bottom + offset }
        endMm := { xMm := right, yMm := bottom + offset }
        orientation := .horizontal
        label := formatMm (right - left)
        variant := .length
        tickLengthMm := DIMENSION_TICK_LENGTH_MM
        anchorOffsetMm := some offset
        anchorOriginMm := some { xMm := left, yMm := bottom }
        anchorDirectionMm := some { xMm := 0, yMm := 1 } }

/-- `dimensions.ts`: the `W1` arm of `buildEdgeDimensionSegments` (note the
auto orientation is the reverse of the length arms). -/
def buildW1Segment (obj : Hist.Object2D) (left right top bottom : ℚ)
    (verticalLength : Bool) : DimensionSegment :=
  let anchor := getAnchor obj .W1
  let orientation : Orientation :=
    match anchor.orientation with
    | .auto => if verticalLength then .horizontal else .vertical
    | .vertical => .vertical
    | .horizontal => .horizontal
  let offset := anchor.offsetMm
  match orientation with
  | .horizontal =>
      { measurementKey := .W1
        objectId := obj.base.id
        startMm := { xMm := left, yMm := top - offset }
        endMm := { xMm := right, yMm := top - offset }
        orientation := .horizontal
        label := formatMm (right - left)
        variant := .width
        tickLengthMm := DIMENSION_TICK_LENGTH_MM
        anchorOffsetMm := some offset
        anchorOriginMm := some { xMm := left, yMm := top }
        anchorDirectionMm := some { xMm := 0, yMm := -1 } }
  | .vertical =>
      { measurementKey := .W1
        objectId := obj.base.id
        startMm := { xMm := left - offset, yMm := top }
        endMm := { xMm := left - offset, yMm := bottom }
        orientation := .vertical
        label := formatMm (bottom - top)
        variant := .width
        tickLengthMm := DIMENSION_TICK_LENGTH_MM
        anchorOffsetMm := some offset
        anchorOriginMm := some { xMm := left, yMm := top }
        anchorDirectionMm := some { xMm := -1, yMm := 0 } }

/-- `dimensions.ts`: the `W2` arm of `buildEdgeDimensionSegments`. -/
def buildW2Segment (obj : Hist.Object2D) (left right top bottom : ℚ)
    (verticalLength : Bool) : DimensionSegment :=
  let anchor := getAnchor obj .W2
  let orientation : Orientation :=
    match anchor.orientation with
    | .auto => if verticalLength then .horizontal else .vertical
    | .vertical => .vertical
    | .horizontal => .horizontal
  let offset := anchor.offsetMm
  match orientation with
  | .horizontal =>
      { measurementKey := .W2
        objectId := obj.base.id
        startMm := { xMm := left, yMm := bottom + offset }
        endMm := { xMm := right, yMm := bottom + offset }
        orientation := .horizontal
        label := formatMm (right - left)
        variant := .width
        tickLengthMm := DIMENSION_TICK_LENGTH_MM
        anchorOffsetMm := some offset
        anchorOriginMm := some { xMm := left, yMm := bottom }
        anchorDirectionMm := some { xMm := 0, yMm := 1 } }
  | .vertical =>
      { measurementKey := .W2
        objectId := obj.base.id
        startMm := { xMm := right + offset, yMm := top }
        endMm := { xMm := right + offset, yMm := bottom }
        orientation := .vertical
        label := formatMm (bottom - top)
        variant := .width
        tickLengthMm := DIMENSION_TICK_LENGTH_MM
        anchorOffsetMm := some offset
        anchorOriginMm := some { xMm := right, yMm := top }
        anchorDirectionMm := some { xMm := 1, yMm := 0 } }

/-- `dimensions.ts`: `buildEdgeDimensionSegments` — the four edge arms in
`L1, L2, W1, W2` order, then (for ramps) the left and right wing segments. -/
def buildEdgeDimensionSegments (tg : Trig) (obj : Hist.Object2D) :
    List DimensionSegment :=
  let bbox := getDimensionBoundingBox tg obj
  let topLeft := topLeftFromCenterMm { xMm := obj.base.xMm, yMm := obj.base.yMm } bbox
  let left := topLeft.xMm
  let right := left + bbox.widthMm
  let top := topLeft.yMm
  let bottom := top + bbox.heightMm
  let verticalLength := isLengthVertical obj.base.rotationDeg
  let segments : List DimensionSegment :=
    (if obj.base.measurements.L1 then
      [buildL1Segment obj left right top bottom verticalLength] else []) ++
    (if obj.base.measurements.L2 then
      [buildL2Segment obj left right top bottom verticalLength] else []) ++
    (if obj.base.measurements.W1 then
      [buildW1Segment obj left right top bottom verticalLength] else []) ++
    (if obj.base.measurements.W2 then
      [buildW2Segment obj left right top bottom verticalLength] else [])
  match obj with
  | .ramp r =>
      segments ++
        ((buildWingDimensionSegment tg r .left).toList ++
         (buildWingDimensionSegment tg r .right).toList)
  | .landing _ => segments

/-- `dimensions.ts`: `buildBracketSegments` — the `H` and `E` callouts. -/
def buildBracketSegments (tg : Trig) (obj : Hist.Object2D) :
    List DimensionSegment :=
  let bbox := getDimensionBoundingBox tg obj
  let topLeft := topLeftFromCenterMm { xMm := obj.base.xMm, yMm := obj.base.yMm } bbox
  let left := topLeft.xMm
  let top := topLeft.yMm
  let centerY := top + bbox.heightMm / 2
  let shouldShowHeight : Prop := obj.base.measurements.H = true
  let shouldShowElevation : Prop :=
    obj.base.measurements.E = true ∧ 0 < obj.base.elevationMm
  if ¬shouldShowHeight ∧ ¬shouldShowElevation then []
  else
    (if shouldShowHeight then
      let anchor := getAnchor obj .H
      let halfLength := anchor.offsetMm / 2
      let labelOffset := (obj.base.measurementLabels.H).getD { xMm := 0, yMm := 0 }
      [{ measurementKey := .H
         objectId := obj.base.id
         startMm := { xMm := obj.base.xMm - halfLength, yMm := centerY }
         endMm := { xMm := obj.base.xMm + halfLength, yMm := centerY }
         orientation := .horizontal
         label := "H " ++ formatMm obj.base.heightMm
         variant := .height
         tickLengthMm := DIMENSION_TICK_LENGTH_MM
         anchorOffsetMm := some anchor.offsetMm
         anchorOriginMm := some { xMm := obj.base.xMm, yMm := centerY }
         anchorDirectionMm := some { xMm := 1, yMm := 0 }
         anchorScale := some 2
         labelPositionMm := some { xMm := obj.base.xMm + labelOffset.xMm
                                   yMm := centerY + labelOffset.yMm } }]
     else []) ++
    (if shouldShowElevation then
      let anchor := getAnchor obj .E
      let offset := anchor.offsetMm / 2 + DIMENSION_BRACKET_SPACING_MM
      let labelOffset := (obj.base.measurementLabels.E).getD { xMm := 0, yMm := 0 }
      [{ measurementKey := .E
         objectId := obj.base.id
         startMm := { xMm := left - offset, yMm := top }
         endMm := { xMm := left - offset, yMm := top - DIMENSION_BRACKET_HEIGHT_MM }
         orientation := .vertical
         label := "E " ++ formatMm obj.base.elevationMm
         variant := .elevation
         tickLengthMm := DIMENSION_TICK_LENGTH_MM
         anchorOffsetMm := some anchor.offsetMm
         anchorOriginMm := some { xMm := left - DIMENSION_BRACKET_SPACING_MM, yMm := top }
         anchorDirectionMm := some { xMm := -1, yMm := 0 }
         anchorScale := some 2
         labelPositionMm := some { xMm := left - offset + labelOffset.xMm
                                   yMm := top - DIMENSION_BRACKET_HEIGHT_MM + labelOffset.yMm } }]
     else [])

/-- `dimensions.ts`: `generateDimensionsForObject`. -/
def generateDimensionsForObject (tg : Trig) (obj : Hist.Object2D) :
    List DimensionSegment :=
  buildEdgeDimensionSegments tg obj ++ buildBracketSegments tg obj

/-- `dimensions.ts`: `generateDimensions`. -/
def generateDimensions (tg : Trig) (objects : List Hist.Object2D) :
    List DimensionSegment :=
  objects.flatMap (generateDimensionsForObject tg)

end Dims

/-! ### Concrete fixtures used by counterexamples and witnesses -/

namespace Fix

/-- All-false measurement flags. -/
def measOff : MeasurementState :=
  { L1 := false, L2 := false, W1 := false, W2 := false
    WL := false, WR := false, H := false, E := false }

/-- Default anchors: offset 200, orientation auto, for every key. -/
def anchors200 : Hist.MeasurementAnchors :=
  { L1 := Dims.defaultAnchor, L2 := Dims.defaultAnchor
    W1 := Dims.defaultAnchor, W2 := Dims.defaultAnchor
    WL := Dims.defaultAnchor, WR := Dims.defaultAnchor
    H := Dims.defaultAnchor, E := Dims.defaultAnchor }

/-- An era-B snapshot with no objects. -/
def histSnapA : Hist.Snapshot :=
  { snapToGrid := true, snapToObjects := true, snapIncrementMm := 10
    objects := [], selectedId := none, selectedMeasurementKey := none }

/-- A second, distinct era-B snapshot. -/
def histSnapB : Hist.Snapshot :=
  { snapToGrid := false, snapToObjects := true, snapIncrementMm := 100
    objects := [], selectedId := none, selectedMeasurementKey := none }

/-- A history with one undoable step. -/
def histOne : Hist.HistoryState :=
  { past := [histSnapB], present := histSnapA, future := [] }

/-- All-200 measurement offsets (the factory default). -/
def offsets200 : Core.MeasurementOffsets :=
  { L1 := 200, L2 := 200, W1 := 200, W2 := 200
    WL := 200, WR := 200, H := 200, E := 200 }

/-- All-300 measurement offsets (a distinct offsets map). -/
def offsets300 : Core.MeasurementOffsets :=
  { L1 := 300, L2 := 300, W1 := 300, W2 := 300
    WL := 300, WR := 300, H := 300, E := 300 }

/-- A normalised era-A base object at the origin. -/
def baseA (id : String) : Core.BaseObj :=
  { id := id, xMm := 0, yMm := 0, lengthMm := 1000, widthMm := 1000
    heightMm := 300, elevationMm := 0, rotationDeg := 0, locked := false
    measurements := measOff, measurementOffsets := offsets200 }

/-- A ramp with a 500mm left wing. -/
def rampWing500 : Core.RampObj :=
  { base := baseA "ramp-1", runMm := 1000, showArrow := true
    hasLeftWing := true, leftWingSizeMm := 500
    hasRightWing := false, rightWingSizeMm := 0 }

/-- A snapshot holding just `rampWing500`. -/
def snapC7 : Core.Snapshot :=
  { snapToGrid := true, snapToObjects := true, snapIncrementMm := 10
    objects := [.ramp rampWing500], selectedId := none }

/-- A ramp whose stored centre is not integral (not normalised). -/
def rampHalf : Core.RampObj :=
  { base := { baseA "ramp-h" with xMm := 1/2 }, runMm := 1000, showArrow := true
    hasLeftWing := false, leftWingSizeMm := 0
    hasRightWing := false, rightWingSizeMm := 0 }

/-- A snapshot holding just `rampHalf`. -/
def snapHalf : Core.Snapshot :=
  { snapToGrid := true, snapToObjects := true, snapIncrementMm := 10
    objects := [.ramp rampHalf], selectedId := none }

/-- The patch `{ hasLeftWing: false }`. -/
def patchNoLeftWing : Core.ObjectPatch := { hasLeftWing := some false }

/-- The patch `{ measurements: { WL: true } }`. -/
def patchWLTrue : Core.ObjectPatch :=
  { measurements := some { WL := some true } }

/-- The patch `{ measurements: { E: true } }`. -/
def patchETrue : Core.ObjectPatch :=
  { measurements := some { E := some true } }

/-- The patch `{ measurementOffsets: offsets300 }`. -/
def patchOffsets : Core.ObjectPatch :=
  { measurementOffsets := some offsets300 }

/-- A 1000x1000 landing at the origin (snap target). -/
def landingA : Core.Object2D := .landing { base := baseA "landing-A" }

/-- A second 1000x1000 landing, dragged so its box sits 10mm right of
`landingA`'s right edge and 3mm below exact row alignment. -/
def landingB : Core.Object2D :=
  .landing { base := { baseA "landing-B" with xMm := 1010, yMm := 3 } }

/-- The object list for the snap scenario. -/
def objsC4 : List Core.Object2D := [landingA, landingB]

/-- A concrete trig record: the exact values of cosine/sine at 0 degrees
(used to instantiate trig-generic theorems at rotation 0). -/
def trigId : Trig := { cosDeg := fun _ => 1, sinDeg := fun _ => 0 }

end Fix

/-- Kind dispatch of the normalisation step (`applyPatch` with the empty
patch normalises and changes nothing else). -/
def Core.normaliseObject : Core.Object2D → Core.Object2D
  | .ramp r => .ramp (Core.normaliseRampObject r)
  | .landing l => .landing (Core.normaliseLandingObject l)

/-- Last `n` elements of a list (what `Array.shift`-style trimming to a bound
keeps). -/
def takeLast (n : Nat) (l : List α) : List α := l.drop (l.length - n)

/-- The era-B ramp of the concrete dimension scenario: centre `(0,0)`,
`runMm = 1000`, `widthMm = 1000`, right wing of 500mm, rotation 0, with
`L1,L2,W1,W2,WR` toggled on (mirrors the repository's
`rampWithRightWingFixture`). -/
def Fix.rampB9 : Hist.RampObj :=
  { base :=
      { id := "fixture-ramp-with-right-wing", xMm := 0, yMm := 0
        lengthMm := 1000, widthMm := 1000, heightMm := 0, elevationMm := 0
        rotationDeg := 0, locked := false
        measurements :=
          { L1 := true, L2 := true, W1 := true, W2 := true
            WL := false, WR := true, H := false, E := false }
        measurementAnchors := Fix.anchors200
        measurementLabels := {} }
    runMm := 1000, showArrow := true
    hasLeftWing := false, leftWingSizeMm := 0
    hasRightWing := true, rightWingSizeMm := 500 }

/-! ### Theorems -/

/-- Helper: the two centre/top-left conversions cancel for any box. -/
theorem centerFromTopLeftMm_topLeftFromCenterMm (c : PointMm) (b : BoundingBoxMm) :
    centerFromTopLeftMm (topLeftFromCenterMm c b) b = c := by
  cases c
  simp [centerFromTopLeftMm, topLeftFromCenterMm]
  constructor <;> ring

/-- Helper: the conversions cancel in the other order as well. -/
theorem topLeftFromCenterMm_centerFromTopLeftMm (p : PointMm) (b : BoundingBoxMm) :
    topLeftFromCenterMm (centerFromTopLeftMm p b) b = p := by
  cases p
  simp [centerFromTopLeftMm, topLeftFromCenterMm]
  constructor <;> ring

/-- Claim C8: for every centre `c`, top-left `p` and bounding box produced by
`getObjectBoundingBoxMm` (in particular rotated, wing-asymmetric ramp boxes
with non-zero offsets), `centerFromTopLeftMm` and `topLeftFromCenterMm` are
exact inverses of each other.  Proved for every box whatsoever, which covers
every produced box. -/
theorem topLeft_center_exact_inverses (tg : Trig) (obj : Core.Object2D)
    (c p : PointMm) :
    (centerFromTopLeftMm (topLeftFromCenterMm c (Core.getObjectBoundingBoxMm tg obj))
        (Core.getObjectBoundingBoxMm tg obj) = c) ∧
    (topLeftFromCenterMm (centerFromTopLeftMm p (Core.getObjectBoundingBoxMm tg obj))
        (Core.getObjectBoundingBoxMm tg obj) = p) ∧
    ∀ b : BoundingBoxMm,
      centerFromTopLeftMm (topLeftFromCenterMm c b) b = c ∧
      topLeftFromCenterMm (centerFromTopLeftMm p b) b = p := by
  refine ⟨centerFromTopLeftMm_topLeftFromCenterMm _ _,
    topLeftFromCenterMm_centerFromTopLeftMm _ _, fun b => ⟨?_, ?_⟩⟩
  · exact centerFromTopLeftMm_topLeftFromCenterMm _ _
  · exact topLeftFromCenterMm_centerFromTopLeftMm _ _

/-- Helper: cloning an object is the identity on values. -/
theorem Hist.cloneObject_id (o : Hist.Object2D) : Hist.cloneObject o = o := by
  cases o <;> rfl

/-- Helper: cloning a snapshot is the identity on values (deep copies are
indistinguishable from the original in a value semantics). -/
theorem Hist.cloneSnapshot_id (s : Hist.Snapshot) : Hist.cloneSnapshot s = s := by
  have hmap : s.objects.map Hist.cloneObject = s.objects := by
    rw [show Hist.cloneObject = id from funext Hist.cloneObject_id, List.map_id]
  cases s
  simp [Hist.cloneSnapshot] at hmap ⊢
  exact hmap

/-- Claim C2: whenever the past stack is non-empty, undoing and then redoing
restores the exact pre-undo present snapshot. -/
theorem redo_undo_restores_present (h : Hist.HistoryState) (hp : h.past ≠ []) :
    (Hist.redo (Hist.undo h)).present = h.present := by
  rcases e : h.past.getLast? with _ | prev
  · exact absurd (List.getLast?_eq_none_iff.mp e) hp
  · simp [Hist.undo, e, Hist.redo, Hist.cloneSnapshot_id]

/-- Witness for C2: a concrete one-step history round-trips. -/
theorem redo_undo_restores_present_witness :
    Fix.histOne.past ≠ [] ∧
    (Hist.redo (Hist.undo Fix.histOne)).present = Fix.histOne.present :=
  ⟨by decide, redo_undo_restores_present Fix.histOne (by decide)⟩

/-- Helper: `takeLast n` of a list no longer than `n` is the whole list. -/
theorem takeLast_of_length_le {l : List α} (h : l.length ≤ n) :
    takeLast n l = l := by
  unfold takeLast
  rw [Nat.sub_eq_zero_of_le h, List.drop_zero]

/-- Helper: `takeLast n` never yields more than `n` elements. -/
theorem takeLast_length_le (n : Nat) (l : List α) : (takeLast n l).length ≤ n := by
  unfold takeLast
  rw [List.length_drop]
  omega

/-- Helper: taking the last `n` of a partially trimmed list is the same as
taking the last `n` of the untrimmed list. -/
theorem takeLast_takeLast_append (n : Nat) (xs ys : List α) :
    takeLast n (takeLast n xs ++ ys) = takeLast n (xs ++ ys) := by
  unfold takeLast
  simp only [List.length_append, List.length_drop]
  rw [List.drop_append_eq_append_drop, List.drop_append_eq_append_drop,
    List.drop_drop]
  simp only [List.length_drop]
  congr 1
  · congr 1
    omega
  · congr 1
    omega

/-- Helper: the `shift`-once trimming of `commitSnapshot` equals `takeLast 50`
whenever at most one element over the bound was pushed. -/
theorem trim_eq_takeLast (xs : List Hist.Snapshot) (hb : xs.length ≤ 51) :
    (if Hist.MAX_PAST < xs.length then xs.tail else xs) = takeLast 50 xs := by
  unfold Hist.MAX_PAST
  split
  · next hlt =>
      have : xs.length - 50 = 1 := by omega
      unfold takeLast
      rw [this, List.drop_one]
  · next hge => exact (takeLast_of_length_le (by omega)).symm

/-- Helper: the past stack of `commitSnapshot` is the previous stack with the
present appended, trimmed to the last 50 entries. -/
theorem commitSnapshot_past (h : Hist.HistoryState) (next : Hist.Snapshot)
    (hb : h.past.length ≤ 50) :
    (Hist.commitSnapshot h next).past = takeLast 50 (h.past ++ [h.present]) := by
  have : (Hist.commitSnapshot h next).past =
      (if Hist.MAX_PAST < (h.past ++ [Hist.cloneSnapshot h.present]).length
       then (h.past ++ [Hist.cloneSnapshot h.present]).tail
       else h.past ++ [Hist.cloneSnapshot h.present]) := rfl
  rw [this, Hist.cloneSnapshot_id]
  exact trim_eq_takeLast _ (by simp; omega)

/-- Helper: the past stack after folding `commitSnapshot` over a list of
snapshots consists of the last 50 pushed presents. -/
theorem foldl_commit_past (l : List Hist.Snapshot) :
    ∀ h : Hist.HistoryState, h.past.length ≤ 50 →
      (l.foldl Hist.commitSnapshot h).past =
        takeLast 50 (h.past ++ (h.present :: l).dropLast) := by
  induction l with
  | nil =>
      intro h hb
      simp only [List.foldl_nil, List.dropLast_single, List.append_nil]
      exact (takeLast_of_length_le hb).symm
  | cons a t ih =>
      intro h hb
      rw [List.foldl_cons]
      have hpast := commitSnapshot_past h a hb
      have hpres : (Hist.commitSnapshot h a).present = a := by
        simp [Hist.commitSnapshot, Hist.cloneSnapshot_id]
      have hlen : (Hist.commitSnapshot h a).past.length ≤ 50 := by
        rw [hpast]; exact takeLast_length_le _ _
      rw [ih _ hlen, hpast, hpres, takeLast_takeLast_append,
        List.append_assoc]
      rfl

/-- Claim C3: `commitSnapshot` pushes a (deep copy of the) current present
onto the past stack, drops the oldest entry once the stack exceeds 50, sets
the present to `next` and clears the future; consequently committing 60
snapshots from an empty history leaves `past.length = 50` with the 10 oldest
pushed presents evicted first (the surviving past is the pushed sequence
`init :: l.dropLast` minus its first 10 entries). -/
theorem commitSnapshot_bounded_fifo (h : Hist.HistoryState)
    (next init : Hist.Snapshot) (l : List Hist.Snapshot) (hl : l.length = 60) :
    ((Hist.commitSnapshot h next).present = next ∧
     (Hist.commitSnapshot h next).future = [] ∧
     (Hist.commitSnapshot h next).past =
       (if 50 < h.past.length + 1 then (h.past ++ [h.present]).tail
        else h.past ++ [h.present])) ∧
    ((l.foldl Hist.commitSnapshot (Hist.createHistoryState init)).past =
       (init :: l.dropLast).drop 10 ∧
     (l.foldl Hist.commitSnapshot (Hist.createHistoryState init)).past.length = 50) := by
  constructor
  · refine ⟨by simp [Hist.commitSnapshot, Hist.cloneSnapshot_id],
      by simp [Hist.commitSnapshot], ?_⟩
    have : (Hist.commitSnapshot h next).past =
        (if Hist.MAX_PAST < (h.past ++ [Hist.cloneSnapshot h.present]).length
         then (h.past ++ [Hist.cloneSnapshot h.present]).tail
         else h.past ++ [Hist.cloneSnapshot h.present]) := rfl
    rw [this, Hist.cloneSnapshot_id]
    unfold Hist.MAX_PAST
    simp only [List.length_append, List.length_cons, List.length_nil]
  · have hcreate_past : (Hist.createHistoryState init).past = [] := rfl
    have hcreate_pres : (Hist.createHistoryState init).present = init :=
      Hist.cloneSnapshot_id init
    have hinv := foldl_commit_past l (Hist.createHistoryState init)
      (by rw [hcreate_past]; simp)
    rw [hcreate_past, hcreate_pres] at hinv
    rcases l with _ | ⟨b, t⟩
    · simp at hl
    · have hdl : ((init : Hist.Snapshot) :: (b :: t)).dropLast =
          init :: (b :: t).dropLast := by
        rw [List.dropLast_cons₂]
      rw [hinv]
      simp only [List.nil_append]
      rw [hdl]
      have hlen : ((init : Hist.Snapshot) :: (b :: t).dropLast).length = 60 := by
        simp only [List.length_cons, List.length_dropLast]
        simp at hl
        omega
      constructor
      · unfold takeLast
        rw [hlen]
      · unfold takeLast
        rw [hlen, List.length_drop, hlen]

/-- Witness for C3: committing 60 concrete snapshots from an empty history
leaves exactly the last 50 pushed presents, oldest evicted first. -/
theorem commitSnapshot_bounded_fifo_witness :
    ((Hist.commitSnapshot Fix.histOne Fix.histSnapA).present = Fix.histSnapA ∧
     (Hist.commitSnapshot Fix.histOne Fix.histSnapA).future = [] ∧
     (Hist.commitSnapshot Fix.histOne Fix.histSnapA).past =
       (if 50 < Fix.histOne.past.length + 1 then
          (Fix.histOne.past ++ [Fix.histOne.present]).tail
        else Fix.histOne.past ++ [Fix.histOne.present])) ∧
    (((List.replicate 60 Fix.histSnapB).foldl Hist.commitSnapshot
        (Hist.createHistoryState Fix.histSnapA)).past =
       (Fix.histSnapA :: (List.replicate 60 Fix.histSnapB).dropLast).drop 10 ∧
     ((List.replicate 60 Fix.histSnapB).foldl Hist.commitSnapshot
        (Hist.createHistoryState Fix.histSnapA)).past.length = 50) :=
  commitSnapshot_bounded_fifo Fix.histOne Fix.histSnapA Fix.histSnapA
    (List.replicate 60 Fix.histSnapB) (by simp)

/-- Helper: `clampInt 0 0` is `0`. -/
theorem clampInt_zero : Core.clampInt 0 0 = 0 := by
  simp [Core.clampInt]

/-- Claim C7: every ramp produced by the update pipeline has a zero wing size
whenever the corresponding wing flag is off; in particular patching
`{hasLeftWing: false}` on a ramp with a 500mm left wing yields a zero wing
size through `updateObject`. -/
theorem ramp_wing_invariant (r : Core.RampObj) (p : Core.ObjectPatch) :
    ((Core.applyPatchToRamp r p).hasLeftWing = false →
      (Core.applyPatchToRamp r p).leftWingSizeMm = 0) ∧
    ((Core.applyPatchToRamp r p).hasRightWing = false →
      (Core.applyPatchToRamp r p).rightWingSizeMm = 0) ∧
    ((Core.normaliseRampObject r).hasLeftWing = false →
      (Core.normaliseRampObject r).leftWingSizeMm = 0) ∧
    ((Core.normaliseRampObject r).hasRightWing = false →
      (Core.normaliseRampObject r).rightWingSizeMm = 0) ∧
    (Core.updateObject Fix.snapC7 "ramp-1" Fix.patchNoLeftWing).objects =
      [Core.Object2D.ramp (Core.applyPatchToRamp Fix.rampWing500 Fix.patchNoLeftWing)] ∧
    (Core.applyPatchToRamp Fix.rampWing500 Fix.patchNoLeftWing).leftWingSizeMm = 0 := by
  have hwing : (Core.applyPatchToRamp Fix.rampWing500 Fix.patchNoLeftWing).leftWingSizeMm = 0 := by
    norm_num [Core.applyPatchToRamp, Core.applyBasePatch, Core.mergeMeasurements,
      Core.normaliseRampObject, Core.normaliseBaseObject, Core.clampInt,
      Fix.rampWing500, Fix.baseA, Fix.patchNoLeftWing, round_eq]
  refine ⟨?_, ?_, ?_, ?_, ?_, hwing⟩
  rotate_left 4
  · norm_num [Core.updateObject, Core.applyPatch, Core.applyPatchToRamp,
      Core.applyPatchToLanding, Core.applyBasePatch, Core.mergeMeasurements,
      Core.measurementKeys, Core.normaliseRampObject, Core.normaliseLandingObject,
      Core.normaliseBaseObject, Core.normaliseDeg, Core.clampInt, Core.roundMm,
      Core.objectsEqual, Core.baseFieldsEqual, Core.measurementsEqual,
      Core.Object2D.id, Core.Object2D.base, MeasurementState.get,
      MeasurementState.set, MeasurementPatch.get, Fix.snapC7, Fix.rampWing500,
      Fix.baseA, Fix.measOff, Fix.offsets200, Fix.patchNoLeftWing, round_eq]
  · intro h
    simp only [Core.applyPatchToRamp, Core.normaliseRampObject] at h ⊢
    rw [h, if_neg (by simp)]
    exact clampInt_zero
  · intro h
    simp only [Core.applyPatchToRamp, Core.normaliseRampObject] at h ⊢
    rw [h, if_neg (by simp)]
    exact clampInt_zero
  · intro h
    simp only [Core.normaliseRampObject] at h ⊢
    rw [h, if_neg (by simp)]
    exact clampInt_zero
  · intro h
    simp only [Core.normaliseRampObject] at h ⊢
    rw [h, if_neg (by simp)]
    exact clampInt_zero

/-- Witness for C7: the invariant instantiated on the concrete 500mm-wing
ramp and the `{hasLeftWing: false}` patch. -/
theorem ramp_wing_invariant_witness :
    (Core.applyPatchToRamp Fix.rampWing500 Fix.patchNoLeftWing).hasLeftWing = false ∧
    (Core.applyPatchToRamp Fix.rampWing500 Fix.patchNoLeftWing).leftWingSizeMm = 0 :=
  ⟨by decide,
    (ramp_wing_invariant Fix.rampWing500 Fix.patchNoLeftWing).1 (by decide)⟩

/-- Claim C6 (code bug): patching `{measurements: {WL: true}}` through the
update pipeline leaves `WL` unchanged — `mergeMeasurements` iterates the
module-local six-key list, silently dropping `WL`/`WR`, so the whole update
is a no-op — while the same patch shape for a listed key (`E`) works.  The
UI's measurement checkboxes send exactly such patches for `WL`/`WR`. -/
theorem measurements_patch_drops_WL :
    (Core.applyPatchToRamp Fix.rampWing500 Fix.patchWLTrue).base.measurements.WL = false ∧
    Core.updateObject Fix.snapC7 "ramp-1" Fix.patchWLTrue = Fix.snapC7 ∧
    (Core.applyPatchToRamp Fix.rampWing500 Fix.patchETrue).base.measurements.E = true := by
  refine ⟨by decide, ?_, by decide⟩
  norm_num [Core.updateObject, Core.applyPatch, Core.applyPatchToRamp,
    Core.applyPatchToLanding, Core.applyBasePatch, Core.mergeMeasurements,
    Core.measurementKeys, Core.normaliseRampObject, Core.normaliseLandingObject,
    Core.normaliseBaseObject, Core.normaliseDeg, Core.clampInt, Core.roundMm,
    Core.objectsEqual, Core.baseFieldsEqual, Core.measurementsEqual,
    Core.Object2D.id, Core.Object2D.base, MeasurementState.get,
    MeasurementState.set, MeasurementPatch.get, Fix.snapC7, Fix.rampWing500,
    Fix.baseA, Fix.measOff, Fix.offsets200, Fix.patchWLTrue, round_eq]

/-- Helper: the implementation's structural equality is reflexive. -/
theorem objectsEqual_refl (o : Core.Object2D) : Core.objectsEqual o o = true := by
  cases o <;>
    simp [Core.objectsEqual, Core.baseFieldsEqual, Core.measurementsEqual,
      Core.measurementKeys, MeasurementState.get]

/-- Helper: applying the empty patch is exactly normalisation. -/
theorem applyPatch_empty (o : Core.Object2D) :
    Core.applyPatch o Core.ObjectPatch.empty = Core.normaliseObject o := by
  cases o <;> rfl

/-- Claim C1 (counterexample): the claimed characterisation fails.  Patching
only the `measurementOffsets` map returns the original snapshot even though
the post-patch object differs from the pre-patch object under full
structural equality over every field (`objectsEqualSpec`); and the empty
patch does not return the original snapshot when the stored object is not
normalised (here `xMm = 1/2`). -/
theorem updateObject_full_equality_counterexample :
    (Core.updateObject Fix.snapC7 "ramp-1" Fix.patchOffsets = Fix.snapC7 ∧
     Core.objectsEqualSpec (Core.Object2D.ramp Fix.rampWing500)
       (Core.applyPatch (Core.Object2D.ramp Fix.rampWing500) Fix.patchOffsets) = false) ∧
    Core.updateObject Fix.snapHalf "ramp-h" Core.ObjectPatch.empty ≠ Fix.snapHalf := by
  refine ⟨⟨?_, ?_⟩, ?_⟩
  · norm_num [Core.updateObject, Core.applyPatch, Core.applyPatchToRamp,
      Core.applyPatchToLanding, Core.applyBasePatch, Core.mergeMeasurements,
      Core.measurementKeys, Core.normaliseRampObject, Core.normaliseLandingObject,
      Core.normaliseBaseObject, Core.normaliseDeg, Core.clampInt, Core.roundMm,
      Core.objectsEqual, Core.baseFieldsEqual, Core.measurementsEqual,
      Core.Object2D.id, Core.Object2D.base, MeasurementState.get,
      MeasurementState.set, MeasurementPatch.get, Fix.snapC7, Fix.rampWing500,
      Fix.baseA, Fix.measOff, Fix.offsets200, Fix.patchOffsets, Fix.offsets300,
      round_eq]
  · norm_num [Core.objectsEqualSpec, Core.applyPatch, Core.applyPatchToRamp,
      Core.applyBasePatch, Core.mergeMeasurements, Core.measurementKeys,
      Core.normaliseRampObject, Core.normaliseBaseObject, Core.normaliseDeg,
      Core.clampInt, Core.roundMm, Fix.rampWing500, Fix.baseA, Fix.measOff,
      Fix.offsets200, Fix.patchOffsets, Fix.offsets300, MeasurementState.get,
      MeasurementState.set, MeasurementPatch.get, round_eq]
  · norm_num [Core.updateObject, Core.applyPatch, Core.applyPatchToRamp,
      Core.applyPatchToLanding, Core.applyBasePatch, Core.mergeMeasurements,
      Core.measurementKeys, Core.normaliseRampObject, Core.normaliseLandingObject,
      Core.normaliseBaseObject, Core.normaliseDeg, Core.clampInt, Core.roundMm,
      Core.objectsEqual, Core.baseFieldsEqual, Core.measurementsEqual,
      Core.Object2D.id, Core.Object2D.base, MeasurementState.get,
      MeasurementState.set, MeasurementPatch.get, Fix.snapHalf, Fix.rampHalf,
      Fix.baseA, Fix.measOff, Fix.offsets200, Core.ObjectPatch.empty, round_eq]

/-- Claim C1 (amended): for an id present in the snapshot, `updateObject`
returns the original snapshot exactly when the implementation's structural
equality `objectsEqual` — which compares the shared scalar fields, the six
measurement keys `L1,L2,W1,W2,H,E` and the ramp-specific fields, but not
`measurementOffsets` and not `WL`/`WR` — holds between the pre-patch object
and the normalised post-patch object; and the empty patch returns the
original snapshot whenever the stored object is already normalised. -/
theorem updateObject_noop_iff (s : Core.Snapshot) (id : String)
    (p : Core.ObjectPatch) (i : ℕ) (target : Core.Object2D)
    (hfind : s.objects.findIdx? (fun o => o.id == id) = some i)
    (hget : s.objects.get? i = some target) :
    (Core.updateObject s id p = s ↔
      Core.objectsEqual target (Core.applyPatch target p) = true) ∧
    (Core.normaliseObject target = target →
      Core.updateObject s id Core.ObjectPatch.empty = s) := by
  have hlt : i < s.objects.length := by
    rcases List.get?_eq_some.mp hget with ⟨hl, _⟩
    exact hl
  constructor
  · simp only [Core.updateObject, hfind, hget]
    by_cases he : Core.objectsEqual target (Core.applyPatch target p) = true
    · simp [he]
    · rw [if_neg he]
      constructor
      · intro heq
        exfalso
        have hobjs : s.objects.set i (Core.applyPatch target p) = s.objects :=
          congrArg Core.Snapshot.objects heq
        have hsame : some (Core.applyPatch target p) = some target := by
          rw [← List.get?_set_eq_of_lt (Core.applyPatch target p) hlt, hobjs, hget]
        have : Core.applyPatch target p = target := Option.some.inj hsame
        rw [this] at he
        exact he (objectsEqual_refl target)
      · intro h
        exact absurd h he
  · intro hn
    simp only [Core.updateObject, hfind, hget, applyPatch_empty, hn,
      if_pos (objectsEqual_refl target)]

/-- Witness for C1 (amended): instantiated on a concrete snapshot, id, patch
and target object. -/
theorem updateObject_noop_iff_witness :
    (Core.updateObject Fix.snapC7 "ramp-1" Fix.patchNoLeftWing = Fix.snapC7 ↔
      Core.objectsEqual (Core.Object2D.ramp Fix.rampWing500)
        (Core.applyPatch (Core.Object2D.ramp Fix.rampWing500) Fix.patchNoLeftWing) = true) ∧
    (Core.normaliseObject (Core.Object2D.ramp Fix.rampWing500) =
        Core.Object2D.ramp Fix.rampWing500 →
      Core.updateObject Fix.snapC7 "ramp-1" Core.ObjectPatch.empty = Fix.snapC7) :=
  updateObject_noop_iff Fix.snapC7 "ramp-1" Fix.patchNoLeftWing 0
    (Core.Object2D.ramp Fix.rampWing500) (by decide) (by decide)

/-- Claim C10 (frame property): `updateObject` leaves every snapshot field
other than `objects` untouched, preserves the object count, and leaves every
list position other than the targeted index exactly as it was. -/
theorem updateObject_frame (s : Core.Snapshot) (id : String)
    (p : Core.ObjectPatch) :
    (Core.updateObject s id p).snapToGrid = s.snapToGrid ∧
    (Core.updateObject s id p).snapToObjects = s.snapToObjects ∧
    (Core.updateObject s id p).snapIncrementMm = s.snapIncrementMm ∧
    (Core.updateObject s id p).selectedId = s.selectedId ∧
    (Core.updateObject s id p).objects.length = s.objects.length ∧
    ∀ j : ℕ, s.objects.findIdx? (fun o => o.id == id) ≠ some j →
      (Core.updateObject s id p).objects.get? j = s.objects.get? j := by
  rcases hfind : s.objects.findIdx? (fun o => o.id == id) with _ | i
  · simp [Core.updateObject, hfind]
  · rcases hget : s.objects.get? i with _ | target <;>
      rw [List.get?_eq_getElem?] at hget
    · simp [Core.updateObject, hfind, hget]
    · by_cases he : Core.objectsEqual target (Core.applyPatch target p) = true
      · simp [Core.updateObject, hfind, hget, he]
      · simp only [Core.updateObject, hfind, List.get?_eq_getElem?, hget, he,
          if_false, Bool.false_eq_true]
        refine ⟨trivial, trivial, trivial, trivial, ?_, ?_⟩
        · simp
        · intro j hj
          have hne : i ≠ j := fun hij => hj (congrArg some hij)
          exact List.getElem?_set_ne hne

/-- Witness for C10: on a concrete snapshot, the non-targeted position and the
selection are untouched. -/
theorem updateObject_frame_witness :
    (Core.updateObject Fix.snapC7 "ramp-1" Fix.patchNoLeftWing).objects.get? 1 =
      Fix.snapC7.objects.get? 1 ∧
    (Core.updateObject Fix.snapC7 "ramp-1" Fix.patchNoLeftWing).selectedId =
      Fix.snapC7.selectedId :=
  ⟨(updateObject_frame Fix.snapC7 "ramp-1" Fix.patchNoLeftWing).2.2.2.2.2 1
      (by decide),
   (updateObject_frame Fix.snapC7 "ramp-1" Fix.patchNoLeftWing).2.2.2.1⟩

/-- Helper: folding the keep-smallest reducer from an initial element returns
an element of the pool (or the start) with minimal absolute delta. -/
theorem foldl_pickBestStep_acc (l : List Core.SnapAxisCandidate) :
    ∀ b0 : Core.SnapAxisCandidate,
      ∃ b, l.foldl Core.pickBestStep (some b0) = some b ∧
        (b = b0 ∨ b ∈ l) ∧ |b.delta| ≤ |b0.delta| ∧
        ∀ c ∈ l, |b.delta| ≤ |c.delta| := by
  induction l with
  | nil =>
      intro b0
      exact ⟨b0, rfl, Or.inl rfl, le_refl _, by simp⟩
  | cons a t ih =>
      intro b0
      rw [List.foldl_cons,
        show Core.pickBestStep (some b0) a =
          (if |a.delta| < |b0.delta| then some a else some b0) from rfl]
      by_cases hlt : |a.delta| < |b0.delta|
      · rw [if_pos hlt]
        obtain ⟨b, hfold, hmem, hle, hmin⟩ := ih a
        refine ⟨b, hfold, ?_, le_trans hle (le_of_lt hlt), ?_⟩
        · rcases hmem with h | h
          · exact Or.inr (h ▸ List.mem_cons_self a t)
          · exact Or.inr (List.mem_cons_of_mem a h)
        · intro c hc
          rcases List.mem_cons.mp hc with h | h
          · exact h ▸ hle
          · exact hmin c h
      · rw [if_neg hlt]
        obtain ⟨b, hfold, hmem, hle, hmin⟩ := ih b0
        refine ⟨b, hfold, ?_, hle, ?_⟩
        · rcases hmem with h | h
          · exact Or.inl h
          · exact Or.inr (List.mem_cons_of_mem a h)
        · intro c hc
          rcases List.mem_cons.mp hc with h | h
          · exact h ▸ le_trans hle (le_of_not_lt hlt)
          · exact hmin c h

/-- Helper: on a non-empty pool, the reducer yields a pool element of minimal
absolute delta. -/
theorem foldl_pickBestStep_spec (l : List Core.SnapAxisCandidate) (hne : l ≠ []) :
    ∃ b, l.foldl Core.pickBestStep none = some b ∧ b ∈ l ∧
      ∀ c ∈ l, |b.delta| ≤ |c.delta| := by
  rcases l with _ | ⟨a, t⟩
  · exact absurd rfl hne
  · rw [List.foldl_cons, show Core.pickBestStep none a = some a from rfl]
    obtain ⟨b, hfold, hmem, hle, hmin⟩ := foldl_pickBestStep_acc t a
    refine ⟨b, hfold, ?_, ?_⟩
    · rcases hmem with h | h
      · exact h ▸ List.mem_cons_self a t
      · exact List.mem_cons_of_mem a h
    · intro c hc
      rcases List.mem_cons.mp hc with h | h
      · exact h ▸ hle
      · exact hmin c h


/-- Helper: x-axis poi candidates never have face type. -/
theorem poiCandidatesX_filter_face (a b : List Core.Poi) :
    (Core.poiCandidatesX a b).filter
      (fun c => c.type == Core.SnapType.face) = [] := by
  rw [List.filter_eq_nil]
  intro c hc
  unfold Core.poiCandidatesX at hc
  obtain ⟨ap, hap, hc2⟩ := List.mem_flatMap.mp hc
  obtain ⟨tp, htp, hc3⟩ := List.mem_filterMap.mp hc2
  by_cases hcond : |tp.x - ap.x| ≤ Core.SNAP_THRESHOLD_MM
  · rw [if_pos hcond] at hc3
    cases Option.some.inj hc3
    simp
  · rw [if_neg hcond] at hc3
    exact absurd hc3 (by simp)

/-- Helper: the other-object list of the concrete snap scenario. -/
theorem othersC4_eval :
    Fix.objsC4.filter (fun oo => !(oo.id == (Fix.landingB).id)) = [Fix.landingA] := by
  norm_num [Fix.objsC4, Fix.landingA, Fix.landingB, Core.Object2D.id,
    Core.Object2D.base, Fix.baseA, List.filter_cons, List.filter_nil]
  decide

/-- Helper: the axis-aligned box of the target landing. -/
theorem aabbA_eval (tg : Trig) :
    Core.getAabbMm tg Fix.landingA none =
      { left := -500, right := 500, top := -500, bottom := 500
        cx := 0, cy := 0, w := 1000, h := 1000 } := by
  norm_num [Core.getAabbMm, Core.getObjectBoundingBoxMm, isVerticalRotation,
    jsRem, topLeftFromCenterMm, Fix.landingA, Fix.baseA, Core.Object2D.base]

/-- Helper: the axis-aligned box of the dragged landing at its proposed
centre. -/
theorem aabbB_eval (tg : Trig) :
    Core.getAabbMm tg Fix.landingB (some { xMm := 1010, yMm := 3 }) =
      { left := 510, right := 1510, top := -497, bottom := 503
        cx := 1010, cy := 3, w := 1000, h := 1000 } := by
  norm_num [Core.getAabbMm, Core.getObjectBoundingBoxMm, isVerticalRotation,
    jsRem, topLeftFromCenterMm, Fix.landingB, Fix.baseA, Core.Object2D.base]

/-- Helper: the points of interest of the target landing. -/
theorem poisA_eval (tg : Trig) :
    Core.getPoisMm (Core.getAabbMm tg Fix.landingA none) =
      [ { name := "topLeft", x := -500, y := -500 }
      , { name := "topRight", x := 500, y := -500 }
      , { name := "bottomLeft", x := -500, y := 500 }
      , { name := "bottomRight", x := 500, y := 500 }
      , { name := "midTop", x := 0, y := -500 }
      , { name := "midBottom", x := 0, y := 500 }
      , { name := "midLeft", x := -500, y := 0 }
      , { name := "midRight", x := 500, y := 0 }
      , { name := "centre", x := 0, y := 0 } ] := by
  rw [aabbA_eval]
  norm_num [Core.getPoisMm]

/-- Helper: the points of interest of the dragged landing. -/
theorem poisB_eval (tg : Trig) :
    Core.getPoisMm (Core.getAabbMm tg Fix.landingB
        (some { xMm := 1010, yMm := 3 })) =
      [ { name := "topLeft", x := 510, y := -497 }
      , { name := "topRight", x := 1510, y := -497 }
      , { name := "bottomLeft", x := 510, y := 503 }
      , { name := "bottomRight", x := 1510, y := 503 }
      , { name := "midTop", x := 1010, y := -497 }
      , { name := "midBottom", x := 1010, y := 503 }
      , { name := "midLeft", x := 510, y := 3 }
      , { name := "midRight", x := 1510, y := 3 }
      , { name := "centre", x := 1010, y := 3 } ] := by
  rw [aabbB_eval]
  norm_num [Core.getPoisMm]

/-- Claim C4: per axis, `pickBestAxisCandidate` prefers any face-type
candidate over every poi-type candidate and, within the preferred type,
chooses the candidate of smallest absolute delta; concretely, for two
landings whose edges and corners both align within the 20mm threshold on X
(the poi candidate list is non-empty), the move-gesture snap reports the
face-type alignment on X. -/
theorem snap_face_priority (tg : Trig) (cands : List Core.SnapAxisCandidate)
    (c : Core.SnapAxisCandidate) (hc : c ∈ cands) (hface : c.type = .face) :
    (∃ b, Core.pickBestAxisCandidate cands = some b ∧ b.type = .face ∧
       ∀ d ∈ cands, d.type = .face → |b.delta| ≤ |d.delta|) ∧
    (Core.getObjectSnap tg true true 10 Fix.objsC4 Fix.landingB
        { xMm := 1010, yMm := 3 }).bestX =
      some { delta := -10, snapCoord := 500, type := .face } ∧
    Core.poiCandidatesX
        (Core.getPoisMm (Core.getAabbMm tg Fix.landingB
          (some { xMm := 1010, yMm := 3 })))
        (Core.getPoisMm (Core.getAabbMm tg Fix.landingA none)) ≠ [] ∧
    (∀ l : List Core.SnapAxisCandidate, l ≠ [] →
      l.filter (fun d => d.type == Core.SnapType.face) = [] →
      ∃ b, Core.pickBestAxisCandidate l = some b ∧ b ∈ l ∧
        ∀ d ∈ l, |b.delta| ≤ |d.delta|) := by
  refine ⟨?_, ?_, ?_, ?_⟩
  · have hcpool : c ∈ cands.filter (fun d => d.type == Core.SnapType.face) :=
      List.mem_filter.mpr ⟨hc, by simp [hface]⟩
    have hpoolne : cands.filter (fun d => d.type == Core.SnapType.face) ≠ [] :=
      List.ne_nil_of_mem hcpool
    obtain ⟨b, hfold, hmem, hmin⟩ :=
      foldl_pickBestStep_spec
        (cands.filter (fun d => d.type == Core.SnapType.face)) hpoolne
    refine ⟨b, ?_, ?_, ?_⟩
    · simp only [Core.pickBestAxisCandidate]
      rw [if_pos (List.length_pos.mpr hpoolne)]
      exact hfold
    · have := (List.mem_filter.mp hmem).2
      simpa using this
    · intro d hd hdface
      exact hmin d (List.mem_filter.mpr ⟨hd, by simp [hdface]⟩)
  · simp only [Core.getObjectSnap, Bool.not_true, Bool.and_self, Bool.false_and,
      if_false, Bool.false_eq_true, ite_false]
    rw [othersC4_eval]
    simp only [if_true, List.flatMap_cons, List.flatMap_nil, List.append_nil]
    rw [aabbA_eval, aabbB_eval]
    have hfc : Core.faceCandidates [(510:ℚ), 1010, 1510] [-500, 0, 500] =
        [{ delta := -10, snapCoord := 500, type := .face }] := by
      norm_num [Core.faceCandidates, Core.SNAP_THRESHOLD_MM, List.filterMap]
    norm_num only []
    rw [hfc]
    simp only [Core.pickBestAxisCandidate, List.filter_append,
      poiCandidatesX_filter_face, List.append_nil, List.filter_cons,
      List.filter_nil]
    norm_num [Core.pickBestStep]
  · rw [poisA_eval, poisB_eval]
    norm_num [Core.poiCandidatesX, Core.SNAP_THRESHOLD_MM, List.flatMap_cons,
      List.flatMap_nil, List.filterMap]
    simp
  · intro l hne hnoface
    obtain ⟨b, hfold, hmem, hmin⟩ := foldl_pickBestStep_spec l hne
    refine ⟨b, ?_, hmem, hmin⟩
    simp only [Core.pickBestAxisCandidate, hnoface]
    rw [if_neg (by simp)]
    exact hfold

/-- Witness for C4: a concrete candidate list holding both a poi candidate
with smaller absolute delta and a face candidate; the face candidate wins. -/
theorem snap_face_priority_witness :
    (∃ b, Core.pickBestAxisCandidate
        [ { delta := 5, snapCoord := 0, type := .poi }
        , { delta := -10, snapCoord := 500, type := .face } ] = some b ∧
      b.type = .face ∧
      ∀ d ∈ [ ({ delta := 5, snapCoord := 0, type := .poi } : Core.SnapAxisCandidate)
            , { delta := -10, snapCoord := 500, type := .face } ],
        d.type = .face → |b.delta| ≤ |d.delta|) ∧
    (Core.getObjectSnap Fix.trigId true true 10 Fix.objsC4 Fix.landingB
        { xMm := 1010, yMm := 3 }).bestX =
      some { delta := -10, snapCoord := 500, type := .face } ∧
    Core.poiCandidatesX
        (Core.getPoisMm (Core.getAabbMm Fix.trigId Fix.landingB
          (some { xMm := 1010, yMm := 3 })))
        (Core.getPoisMm (Core.getAabbMm Fix.trigId Fix.landingA none)) ≠ [] ∧
    (∃ b, Core.pickBestAxisCandidate
        [ ({ delta := 5, snapCoord := 0, type := .poi } : Core.SnapAxisCandidate) ]
          = some b ∧
      b ∈ [ ({ delta := 5, snapCoord := 0, type := .poi } : Core.SnapAxisCandidate) ] ∧
      ∀ d ∈ [ ({ delta := 5, snapCoord := 0, type := .poi } : Core.SnapAxisCandidate) ],
        |b.delta| ≤ |d.delta|) := by
  have h := snap_face_priority Fix.trigId
    [ { delta := 5, snapCoord := 0, type := .poi }
    , { delta := -10, snapCoord := 500, type := .face } ]
    { delta := -10, snapCoord := 500, type := .face }
    (by simp) rfl
  exact ⟨h.1, h.2.1, h.2.2.1,
    h.2.2.2 [ { delta := 5, snapCoord := 0, type := .poi } ] (by simp) (by simp)⟩

/-- Claim C5: per axis, the grid step applied after object snapping is the
1mm minimum increment when the axis received an object snap (never
`snapIncrementMm`), and otherwise `snapIncrementMm` when `snapToGrid` is on
or 1mm when it is off — the returned centre always corresponds to the
object-snapped top-left rounded with exactly that step; with both snap flags
disabled the returned centre corresponds to a top-left with integer (1mm)
coordinates on both axes. -/
theorem getObjectSnap_grid_composition (tg : Trig) (g o : Bool) (inc : ℚ)
    (objects : List Core.Object2D) (obj : Core.Object2D) (centre : PointMm) :
    (topLeftFromCenterMm
        (Core.getObjectSnap tg g o inc objects obj centre).centreMm
        (Core.getObjectBoundingBoxMm tg obj) =
      { xMm := snapMm
          (topLeftFromCenterMm
            { xMm := centre.xMm +
                (((Core.getObjectSnap tg g o inc objects obj centre).bestX.map
                  (fun c => c.delta)).getD 0)
              yMm := centre.yMm +
                (((Core.getObjectSnap tg g o inc objects obj centre).bestY.map
                  (fun c => c.delta)).getD 0) }
            (Core.getObjectBoundingBoxMm tg obj)).xMm
          (if g &&
              !(o && (Core.getObjectSnap tg g o inc objects obj centre).bestX.isSome)
           then inc else Core.MIN_INCREMENT_MM)
        yMm := snapMm
          (topLeftFromCenterMm
            { xMm := centre.xMm +
                (((Core.getObjectSnap tg g o inc objects obj centre).bestX.map
                  (fun c => c.delta)).getD 0)
              yMm := centre.yMm +
                (((Core.getObjectSnap tg g o inc objects obj centre).bestY.map
                  (fun c => c.delta)).getD 0) }
            (Core.getObjectBoundingBoxMm tg obj)).yMm
          (if g &&
              !(o && (Core.getObjectSnap tg g o inc objects obj centre).bestY.isSome)
           then inc else Core.MIN_INCREMENT_MM) }) ∧
    (g = false → o = false →
      ∃ zx zy : ℤ,
        topLeftFromCenterMm
          (Core.getObjectSnap tg g o inc objects obj centre).centreMm
          (Core.getObjectBoundingBoxMm tg obj) =
        { xMm := (zx : ℚ), yMm := (zy : ℚ) }) := by
  cases g <;> cases o
  · constructor
    · simp [Core.getObjectSnap, topLeftFromCenterMm_centerFromTopLeftMm]
    · intro _ _
      refine ⟨round ((topLeftFromCenterMm centre
          (Core.getObjectBoundingBoxMm tg obj)).xMm / Core.MIN_INCREMENT_MM),
        round ((topLeftFromCenterMm centre
          (Core.getObjectBoundingBoxMm tg obj)).yMm / Core.MIN_INCREMENT_MM), ?_⟩
      simp only [Core.getObjectSnap, Bool.not_false, Bool.and_self, if_true,
        topLeftFromCenterMm_centerFromTopLeftMm, snapMm, Core.MIN_INCREMENT_MM]
      norm_num
  · constructor
    · simp [Core.getObjectSnap, topLeftFromCenterMm_centerFromTopLeftMm]
    · intro _ ho
      exact absurd ho (by simp)
  · constructor
    · simp [Core.getObjectSnap, topLeftFromCenterMm_centerFromTopLeftMm]
    · intro hg _
      exact absurd hg (by simp)
  · constructor
    · simp [Core.getObjectSnap, topLeftFromCenterMm_centerFromTopLeftMm]
    · intro hg _
      exact absurd hg (by simp)

/-- Witness for C5: with both snap flags disabled on a concrete drag, the
returned centre corresponds to an integral top-left. -/
theorem getObjectSnap_grid_composition_witness :
    (topLeftFromCenterMm
        (Core.getObjectSnap Fix.trigId false false 10 Fix.objsC4 Fix.landingB
          { xMm := 1010, yMm := 3 }).centreMm
        (Core.getObjectBoundingBoxMm Fix.trigId Fix.landingB) =
      { xMm := snapMm
          (topLeftFromCenterMm
            { xMm := (1010 : ℚ) +
                (((Core.getObjectSnap Fix.trigId false false 10 Fix.objsC4
                    Fix.landingB { xMm := 1010, yMm := 3 }).bestX.map
                  (fun c => c.delta)).getD 0)
              yMm := (3 : ℚ) +
                (((Core.getObjectSnap Fix.trigId false false 10 Fix.objsC4
                    Fix.landingB { xMm := 1010, yMm := 3 }).bestY.map
                  (fun c => c.delta)).getD 0) }
            (Core.getObjectBoundingBoxMm Fix.trigId Fix.landingB)).xMm
          (if false &&
              !(false && (Core.getObjectSnap Fix.trigId false false 10 Fix.objsC4
                  Fix.landingB { xMm := 1010, yMm := 3 }).bestX.isSome)
           then 10 else Core.MIN_INCREMENT_MM)
        yMm := snapMm
          (topLeftFromCenterMm
            { xMm := (1010 : ℚ) +
                (((Core.getObjectSnap Fix.trigId false false 10 Fix.objsC4
                    Fix.landingB { xMm := 1010, yMm := 3 }).bestX.map
                  (fun c => c.delta)).getD 0)
              yMm := (3 : ℚ) +
                (((Core.getObjectSnap Fix.trigId false false 10 Fix.objsC4
                    Fix.landingB { xMm := 1010, yMm := 3 }).bestY.map
                  (fun c => c.delta)).getD 0) }
            (Core.getObjectBoundingBoxMm Fix.trigId Fix.landingB)).yMm
          (if false &&
              !(false && (Core.getObjectSnap Fix.trigId false false 10 Fix.objsC4
                  Fix.landingB { xMm := 1010, yMm := 3 }).bestY.isSome)
           then 10 else Core.MIN_INCREMENT_MM) }) ∧
    ∃ zx zy : ℤ,
      topLeftFromCenterMm
        (Core.getObjectSnap Fix.trigId false false 10 Fix.objsC4 Fix.landingB
          { xMm := 1010, yMm := 3 }).centreMm
        (Core.getObjectBoundingBoxMm Fix.trigId Fix.landingB) =
      { xMm := (zx : ℚ), yMm := (zy : ℚ) } :=
  ⟨(getObjectSnap_grid_composition Fix.trigId false false 10 Fix.objsC4
      Fix.landingB { xMm := 1010, yMm := 3 }).1,
   (getObjectSnap_grid_composition Fix.trigId false false 10 Fix.objsC4
      Fix.landingB { xMm := 1010, yMm := 3 }).2 rfl rfl⟩

/-- Helper: an `if c then none else some x` term is `some` exactly when the
condition fails. -/
theorem isSome_ite_none {α : Type} {c : Prop} [Decidable c] {x : α} :
    (if c then none else (some x : Option α)).isSome ↔ ¬c := by
  by_cases h : c <;> simp [h]

/-- Helper: a wing dimension segment is produced exactly when the wing is
enabled, positively sized, and its measurement flag is on. -/
theorem buildWing_isSome_iff (tg : Trig) (r : Hist.RampObj) :
    ((Dims.buildWingDimensionSegment tg r .left).isSome ↔
      (r.hasLeftWing = true ∧ 0 < r.leftWingSizeMm ∧
        r.base.measurements.WL = true)) ∧
    ((Dims.buildWingDimensionSegment tg r .right).isSome ↔
      (r.hasRightWing = true ∧ 0 < r.rightWingSizeMm ∧
        r.base.measurements.WR = true)) := by
  constructor
  · unfold Dims.buildWingDimensionSegment
    rw [isSome_ite_none]
    push_neg
    simp [MeasurementState.get, not_le, lt_iff_le_and_ne]
  · unfold Dims.buildWingDimensionSegment
    rw [isSome_ite_none]
    push_neg
    simp [MeasurementState.get, not_le, lt_iff_le_and_ne]

/-- Helper: key, variant and label of a produced right-wing segment. -/
theorem buildWing_right_parts (tg : Trig) (r : Hist.RampObj)
    (h : ¬(r.hasRightWing = false ∨ r.rightWingSizeMm ≤ 0 ∨
      r.base.measurements.get .WR = false)) :
    ∃ s, Dims.buildWingDimensionSegment tg r .right = some s ∧
      s.measurementKey = .WR ∧ s.variant = .wing ∧
      s.label = Dims.formatMm r.rightWingSizeMm := by
  unfold Dims.buildWingDimensionSegment
  rw [if_neg h]
  exact ⟨_, rfl, rfl, rfl, rfl⟩

/-- Helper: no segment is produced for a disabled wing. -/
theorem buildWing_left_none (tg : Trig) (r : Hist.RampObj)
    (h : r.hasLeftWing = false ∨ r.leftWingSizeMm ≤ 0 ∨
      r.base.measurements.get .WL = false) :
    Dims.buildWingDimensionSegment tg r .left = none := by
  unfold Dims.buildWingDimensionSegment
  rw [if_pos h]

/-- Helper: the emission guard of the fixture ramp's right wing holds. -/
theorem rampB9_right_guard :
    ¬(Fix.rampB9.hasRightWing = false ∨ Fix.rampB9.rightWingSizeMm ≤ 0 ∨
      Fix.rampB9.base.measurements.get .WR = false) := by
  norm_num [Fix.rampB9, MeasurementState.get]

/-- Helper: a rotation of 0 degrees is not screen-vertical. -/
theorem isLengthVertical_zero : Dims.isLengthVertical (0:ℚ) = false := by
  norm_num [Dims.isLengthVertical, Dims.normaliseRotationDeg, jsRem]

/-- Helper: the wing-free dimension box of the fixture ramp is the plain
1000x1000 square. -/
theorem rampB9_dimension_bbox (tg : Trig) (hcos : tg.cosDeg 0 = 1)
    (hsin : tg.sinDeg 0 = 0) :
    Dims.getDimensionBoundingBox tg (.ramp Fix.rampB9) =
      { widthMm := 1000, heightMm := 1000
        offsetXMm := some 0, offsetYMm := some 0 } := by
  norm_num [Dims.getDimensionBoundingBox, Dims.getRampBoundingBoxMm,
    Dims.getRampOutlinePointsMm, rotatePointMm, hcos, hsin,
    boundingBoxFromPoints, listMin, listMax, Fix.rampB9]

/-- Helper: the fixture ramp produces no height/elevation callouts. -/
theorem rampB9_brackets (tg : Trig) :
    Dims.buildBracketSegments tg (.ramp Fix.rampB9) = [] := by
  norm_num [Dims.buildBracketSegments, Fix.rampB9, Hist.Object2D.base]

/-- Helper: the edge segments of the fixture ramp, with the box reduced to
literals. -/
theorem rampB9_edge_segments (tg : Trig) (hcos : tg.cosDeg 0 = 1)
    (hsin : tg.sinDeg 0 = 0) :
    Dims.buildEdgeDimensionSegments tg (.ramp Fix.rampB9) =
      [ Dims.buildL1Segment (.ramp Fix.rampB9) (-500) 500 (-500) 500 false
      , Dims.buildL2Segment (.ramp Fix.rampB9) (-500) 500 (-500) 500 false
      , Dims.buildW1Segment (.ramp Fix.rampB9) (-500) 500 (-500) 500 false
      , Dims.buildW2Segment (.ramp Fix.rampB9) (-500) 500 (-500) 500 false ] ++
      ((Dims.buildWingDimensionSegment tg Fix.rampB9 .left).toList ++
       (Dims.buildWingDimensionSegment tg Fix.rampB9 .right).toList) := by
  rw [Dims.buildEdgeDimensionSegments]
  rw [rampB9_dimension_bbox tg hcos hsin]
  norm_num [topLeftFromCenterMm, isLengthVertical_zero, Fix.rampB9,
    Hist.Object2D.base]

/-- Helper: the fixture's `L1` edge segment measures 1000mm. -/
theorem rampB9_L1_label :
    (Dims.buildL1Segment (.ramp Fix.rampB9) (-500) 500 (-500) 500 false).label
      = "1000mm" ∧
    (Dims.buildL1Segment (.ramp Fix.rampB9) (-500) 500 (-500) 500 false).measurementKey
      = .L1 := by
  norm_num [Dims.buildL1Segment, Dims.getAnchor, Hist.MeasurementAnchors.get,
    Fix.anchors200, Dims.defaultAnchor, Fix.rampB9, Dims.formatMm, round_eq,
    Hist.Object2D.base]
  decide

/-- Helper: the fixture's `L2` edge segment measures 1000mm. -/
theorem rampB9_L2_label :
    (Dims.buildL2Segment (.ramp Fix.rampB9) (-500) 500 (-500) 500 false).label
      = "1000mm" ∧
    (Dims.buildL2Segment (.ramp Fix.rampB9) (-500) 500 (-500) 500 false).measurementKey
      = .L2 := by
  norm_num [Dims.buildL2Segment, Dims.getAnchor, Hist.MeasurementAnchors.get,
    Fix.anchors200, Dims.defaultAnchor, Fix.rampB9, Dims.formatMm, round_eq,
    Hist.Object2D.base]
  decide

/-- Claim C9: for the ramp at `(0,0)` with `runMm = 1000`, `widthMm = 1000`,
a 500mm right wing, rotation 0 and `L1,L2,W1,W2,WR` toggled on, the dimension
generator emits `L1` and `L2` segments labelled `"1000mm"` (measuring the run,
wing excluded) and a `WR` wing segment labelled `"500mm"`; and in general a
wing segment is emitted exactly when the wing is enabled, positively sized
and its measurement flag is on. -/
theorem dimension_generator_scenario (tg : Trig) (hcos : tg.cosDeg 0 = 1)
    (hsin : tg.sinDeg 0 = 0) :
    (∃ seg ∈ Dims.generateDimensionsForObject tg (.ramp Fix.rampB9),
       seg.measurementKey = .L1 ∧ seg.label = "1000mm") ∧
    (∃ seg ∈ Dims.generateDimensionsForObject tg (.ramp Fix.rampB9),
       seg.measurementKey = .L2 ∧ seg.label = "1000mm") ∧
    (∃ seg ∈ Dims.generateDimensionsForObject tg (.ramp Fix.rampB9),
       seg.measurementKey = .WR ∧ seg.variant = .wing ∧ seg.label = "500mm") ∧
    (∀ (tg2 : Trig) (r : Hist.RampObj),
      ((Dims.buildWingDimensionSegment tg2 r .left).isSome ↔
        (r.hasLeftWing = true ∧ 0 < r.leftWingSizeMm ∧
          r.base.measurements.WL = true)) ∧
      ((Dims.buildWingDimensionSegment tg2 r .right).isSome ↔
        (r.hasRightWing = true ∧ 0 < r.rightWingSizeMm ∧
          r.base.measurements.WR = true))) := by
  have hsegs : Dims.generateDimensionsForObject tg (.ramp Fix.rampB9) =
      ([ Dims.buildL1Segment (.ramp Fix.rampB9) (-500) 500 (-500) 500 false
       , Dims.buildL2Segment (.ramp Fix.rampB9) (-500) 500 (-500) 500 false
       , Dims.buildW1Segment (.ramp Fix.rampB9) (-500) 500 (-500) 500 false
       , Dims.buildW2Segment (.ramp Fix.rampB9) (-500) 500 (-500) 500 false ] ++
       ((Dims.buildWingDimensionSegment tg Fix.rampB9 .left).toList ++
        (Dims.buildWingDimensionSegment tg Fix.rampB9 .right).toList)) ++ [] := by
    rw [Dims.generateDimensionsForObject, rampB9_edge_segments tg hcos hsin,
      rampB9_brackets tg]
  obtain ⟨s, hs, hk, hv, hlab⟩ := buildWing_right_parts tg Fix.rampB9
    rampB9_right_guard
  have hlab5 : s.label = "500mm" := by
    rw [hlab]
    norm_num [Fix.rampB9, Dims.formatMm, round_eq]
    decide
  have hleft : Dims.buildWingDimensionSegment tg Fix.rampB9 .left = none :=
    buildWing_left_none tg Fix.rampB9 (Or.inl (by norm_num [Fix.rampB9]))
  refine ⟨⟨_, ?_, rampB9_L1_label.2, rampB9_L1_label.1⟩,
    ⟨_, ?_, rampB9_L2_label.2, rampB9_L2_label.1⟩,
    ⟨s, ?_, hk, hv, hlab5⟩, fun tg2 r => buildWing_isSome_iff tg2 r⟩
  · rw [hsegs]
    simp
  · rw [hsegs]
    simp
  · rw [hsegs, hleft, hs]
    simp

/-- Witness for C9: the scenario instantiated with the exact trig values at
zero degrees. -/
theorem dimension_generator_scenario_witness :
    (∃ seg ∈ Dims.generateDimensionsForObject Fix.trigId (.ramp Fix.rampB9),
       seg.measurementKey = .L1 ∧ seg.label = "1000mm") ∧
    (∃ seg ∈ Dims.generateDimensionsForObject Fix.trigId (.ramp Fix.rampB9),
       seg.measurementKey = .L2 ∧ seg.label = "1000mm") ∧
    (∃ seg ∈ Dims.generateDimensionsForObject Fix.trigId (.ramp Fix.rampB9),
       seg.measurementKey = .WR ∧ seg.variant = .wing ∧ seg.label = "500mm") ∧
    (∀ (tg2 : Trig) (r : Hist.RampObj),
      ((Dims.buildWingDimensionSegment tg2 r .left).isSome ↔
        (r.hasLeftWing = true ∧ 0 < r.leftWingSizeMm ∧
          r.base.measurements.WL = true)) ∧
      ((Dims.buildWingDimensionSegment tg2 r .right).isSome ↔
        (r.hasRightWing = true ∧ 0 < r.rightWingSizeMm ∧
          r.base.measurements.WR = true))) :=
  dimension_generator_scenario Fix.trigId rfl rfl
